import Mathlib

/-! # Textual projection of procfs entities (`sample/format.hpp`)

A shallow embedding of the formatting layer of `pfs`: the helpers `join`,
`is_printable`, `hexlify`, `to_octal_mask`, `to_hex_mask`, the seven
enum-label inserters and the ten entity inserters, every one of them an
overload of `operator<<` on `std::ostream` in the source.

A `std::ostream` is modelled by the part of its state that the source reads or
writes: the characters written so far, the numeric base (`std::hex`,
`std::dec`, `std::oct`), the `boolalpha` flag, the fill character and the
pending field width (`std::setfill`, `std::setw`).  Every formatted insertion
pads its text on the left up to the pending width and resets the width to
zero, as `std::ostream` does with the default (right) adjustment; no code in
the file changes the adjustment, the precision or the floating-point notation,
so these keep their default values and are not part of the state.

An overload `operator<<(std::ostream&, const T&)` becomes a function
`ostream.put_T : ostream → T → ostream`.
-/

namespace PfsFormat

/-! ## The output stream -/

/-- The numeric base selected by `std::dec`, `std::hex`, `std::oct`. -/
inductive basefield
  | dec
  | hex
  | oct
deriving DecidableEq

/-- The radix of a base. -/
def basefield.radix : basefield → Nat
  | basefield.dec => 10
  | basefield.hex => 16
  | basefield.oct => 8

/-- The state of a `std::ostream` / `std::ostringstream`. -/
structure ostream where
  /-- the characters written so far (`str()` of a string stream) -/
  buf : String
  /-- the base used for integers -/
  base : basefield
  /-- whether `bool` is written as a word -/
  boolalpha : Bool
  /-- the padding character -/
  fill : Char
  /-- the pending field width, consumed by the next formatted insertion -/
  width : Nat

/-- A freshly constructed `std::ostringstream`: empty, decimal, `noboolalpha`,
filled with blanks, no pending width. -/
def ostringstream : ostream := ⟨"", basefield.dec, false, ' ', 0⟩

/-- The member `str()` of a string stream. -/
def ostream.str (out : ostream) : String := out.buf

/-- The text `s` padded on the left with `c` up to width `w`. -/
def padded (w : Nat) (c : Char) (s : String) : String :=
  String.mk (List.replicate (w - s.length) c) ++ s

/-- One formatted insertion of the text `s`: padding up to the pending width,
then the text; the pending width is consumed. -/
def ostream.write (out : ostream) (s : String) : ostream :=
  { out with buf := out.buf ++ padded out.width out.fill s, width := 0 }

/-- The characters `s` appended to the buffer, nothing else touched. -/
def ostream.append (out : ostream) (s : String) : ostream :=
  { out with buf := out.buf ++ s }

/-- The manipulator `std::hex`. -/
def ostream.hex (out : ostream) : ostream := { out with base := basefield.hex }

/-- The manipulator `std::dec`. -/
def ostream.dec (out : ostream) : ostream := { out with base := basefield.dec }

/-- The manipulator `std::oct`. -/
def ostream.oct (out : ostream) : ostream := { out with base := basefield.oct }

/-- The manipulator `std::boolalpha`. -/
def ostream.set_boolalpha (out : ostream) : ostream := { out with boolalpha := true }

/-- The manipulator `std::noboolalpha`. -/
def ostream.noboolalpha (out : ostream) : ostream := { out with boolalpha := false }

/-- The manipulator `std::setfill(c)`. -/
def ostream.setfill (out : ostream) (c : Char) : ostream := { out with fill := c }

/-- The manipulator `std::setw(n)`. -/
def ostream.setw (out : ostream) (n : Nat) : ostream := { out with width := n }

/-- The digits of `n` in base `b`, most significant first, produced by
repeated division; `fuel` bounds the number of digits. -/
def numeral_aux (b : Nat) : Nat → Nat → List Char
  | 0, _ => []
  | fuel + 1, n =>
    if n < b then [Nat.digitChar n]
    else numeral_aux b fuel (n / b) ++ [Nat.digitChar (n % b)]

/-- The numeral of `n` in base `b` (lowercase digits, no sign, no padding). -/
def numeral (b n : Nat) : String := String.mk (numeral_aux b (n + 1) n)

/-- Insertion of a character sequence: `out << "text"`, `out << std::string`. -/
def ostream.put_str (out : ostream) (s : String) : ostream := out.write s

/-- Insertion of one character: `out << c`. -/
def ostream.put_char (out : ostream) (c : Char) : ostream := out.write (String.singleton c)

/-- Insertion of a value of an unsigned integer type: its numeral in the
stream base. -/
def ostream.put_unsigned (out : ostream) (v : Nat) : ostream :=
  out.write (numeral out.base.radix v)

/-- The decimal numeral of an integer: a minus sign when it is negative, then
the numeral of its magnitude. -/
def signed_decimal (v : Int) : String :=
  if v < 0 then "-" ++ numeral 10 v.natAbs else numeral 10 v.natAbs

/-- Insertion of a value of a signed integer type of `bits` bits: in decimal
the sign and the numeral of the magnitude, in the other bases the numeral of
the two-complement bit pattern. -/
def ostream.put_signed (out : ostream) (bits : Nat) (v : Int) : ostream :=
  match out.base with
  | basefield.dec => out.write (signed_decimal v)
  | basefield.hex => out.write (numeral 16 (v % 2 ^ bits).toNat)
  | basefield.oct => out.write (numeral 8 (v % 2 ^ bits).toNat)

/-- Insertion of a `bool`: a word under `boolalpha`, the integer 1 or 0
otherwise. -/
def ostream.put_bool (out : ostream) (b : Bool) : ostream :=
  if out.boolalpha then out.write (if b then "true" else "false")
  else out.write (if b then "1" else "0")

/-! ## Enumerations

The enumerations are declared in `pfs/types.hpp`, which is not among the
sources.  The declaration of an enumeration is a parameter of the model: a
record giving the integer value of each enumerator.  A value of the
enumeration type is a value of its underlying integer type, an `Int`.  The
`case` labels of one `switch` are pairwise distinct (the program would not
compile otherwise), which is the predicate `distinct`. -/

namespace pfs

/-- The enumerators of `pfs::socket::timer`. -/
structure socket.timer where
  none : Int
  retransmit : Int
  another : Int
  time_wait : Int
  zero_window : Int

/-- The values of the enumerators of `pfs::socket::timer`. -/
def socket.timer.values (E : socket.timer) : List Int :=
  [E.none, E.retransmit, E.another, E.time_wait, E.zero_window]

/-- The enumerators have pairwise distinct values. -/
def socket.timer.distinct (E : socket.timer) : Prop := E.values.Nodup

/-- The enumerators of `pfs::socket::state`. -/
structure socket.state where
  established : Int
  syn_sent : Int
  syn_recv : Int
  fin_wait1 : Int
  fin_wait2 : Int
  time_wait : Int
  close : Int
  close_wait : Int
  last_ack : Int
  listen : Int
  closing : Int

/-- The values of the enumerators of `pfs::socket::state`. -/
def socket.state.values (E : socket.state) : List Int :=
  [E.established, E.syn_sent, E.syn_recv, E.fin_wait1, E.fin_wait2, E.time_wait,
   E.close, E.close_wait, E.last_ack, E.listen, E.closing]

/-- The enumerators have pairwise distinct values. -/
def socket.state.distinct (E : socket.state) : Prop := E.values.Nodup

/-- The enumerators of `pfs::unix_domain_socket::type`. -/
structure unix_domain_socket.type where
  stream : Int
  datagram : Int
  seqpacket : Int

/-- The values of the enumerators of `pfs::unix_domain_socket::type`. -/
def unix_domain_socket.type.values (E : unix_domain_socket.type) : List Int :=
  [E.stream, E.datagram, E.seqpacket]

/-- The enumerators have pairwise distinct values. -/
def unix_domain_socket.type.distinct (E : unix_domain_socket.type) : Prop := E.values.Nodup

/-- The enumerators of `pfs::unix_domain_socket::state`. -/
structure unix_domain_socket.state where
  free : Int
  unconnected : Int
  connecting : Int
  connected : Int
  disconnecting : Int

/-- The values of the enumerators of `pfs::unix_domain_socket::state`. -/
def unix_domain_socket.state.values (E : unix_domain_socket.state) : List Int :=
  [E.free, E.unconnected, E.connecting, E.connected, E.disconnecting]

/-- The enumerators have pairwise distinct values. -/
def unix_domain_socket.state.distinct (E : unix_domain_socket.state) : Prop := E.values.Nodup

/-- The enumerators of `pfs::task_state`. -/
structure task_state where
  running : Int
  sleeping : Int
  disk_sleep : Int
  stopped : Int
  tracing_stop : Int
  zombie : Int
  dead : Int
  wakekill : Int
  waking : Int
  parked : Int
  idle : Int

/-- The values of the enumerators of `pfs::task_state`. -/
def task_state.values (E : task_state) : List Int :=
  [E.running, E.sleeping, E.disk_sleep, E.stopped, E.tracing_stop, E.zombie,
   E.dead, E.wakekill, E.waking, E.parked, E.idle]

/-- The enumerators have pairwise distinct values. -/
def task_state.distinct (E : task_state) : Prop := E.values.Nodup

/-- The enumerators of `pfs::status::seccomp`. -/
structure status.seccomp where
  disabled : Int
  strict : Int
  filter : Int

/-- The values of the enumerators of `pfs::status::seccomp`. -/
def status.seccomp.values (E : status.seccomp) : List Int :=
  [E.disabled, E.strict, E.filter]

/-- The enumerators have pairwise distinct values. -/
def status.seccomp.distinct (E : status.seccomp) : Prop := E.values.Nodup

/-- The enumerators of `pfs::module::state`. -/
structure module.state where
  live : Int
  loading : Int
  unloading : Int

/-- The values of the enumerators of `pfs::module::state`. -/
def module.state.values (E : module.state) : List Int :=
  [E.live, E.loading, E.unloading]

/-- The enumerators have pairwise distinct values. -/
def module.state.distinct (E : module.state) : Prop := E.values.Nodup

end pfs

/-- The overload `operator<<(std::ostream&, const pfs::socket::timer)`. -/
def ostream.put_socket_timer (out : ostream) (E : pfs.socket.timer) (timer : Int) : ostream :=
  if timer = E.none then out.put_str "None"
  else if timer = E.retransmit then out.put_str "Retransmit"
  else if timer = E.another then out.put_str "Another"
  else if timer = E.time_wait then out.put_str "Time-Wait"
  else if timer = E.zero_window then out.put_str "Zero-Window"
  else out.put_str "Unknown"

/-- The overload `operator<<(std::ostream&, const pfs::socket::state)`. -/
def ostream.put_socket_state (out : ostream) (E : pfs.socket.state) (state : Int) : ostream :=
  if state = E.established then out.put_str "Established"
  else if state = E.syn_sent then out.put_str "Syn-Sent"
  else if state = E.syn_recv then out.put_str "Syn-Recv"
  else if state = E.fin_wait1 then out.put_str "Fin-Wait1"
  else if state = E.fin_wait2 then out.put_str "Fin-Wait2"
  else if state = E.time_wait then out.put_str "Time-Wait"
  else if state = E.close then out.put_str "Close"
  else if state = E.close_wait then out.put_str "Close-Wait"
  else if state = E.last_ack then out.put_str "Last-Ack"
  else if state = E.listen then out.put_str "Listen"
  else if state = E.closing then out.put_str "Closing"
  else out.put_str "Unknown"

/-- The overload `operator<<(std::ostream&, const pfs::unix_domain_socket::type)`. -/
def ostream.put_unix_domain_socket_type (out : ostream) (E : pfs.unix_domain_socket.type)
    (type : Int) : ostream :=
  if type = E.stream then out.put_str "Stream"
  else if type = E.datagram then out.put_str "Datagram"
  else if type = E.seqpacket then out.put_str "SeqPacket"
  else out.put_str "Unknown"

/-- The overload `operator<<(std::ostream&, const pfs::unix_domain_socket::state)`. -/
def ostream.put_unix_domain_socket_state (out : ostream) (E : pfs.unix_domain_socket.state)
    (state : Int) : ostream :=
  if state = E.free then out.put_str "Free"
  else if state = E.unconnected then out.put_str "Unconnected"
  else if state = E.connecting then out.put_str "Connecting"
  else if state = E.connected then out.put_str "Connected"
  else if state = E.disconnecting then out.put_str "Disconnecting"
  else out.put_str "Unknown"

/-- The overload `operator<<(std::ostream&, const pfs::task_state)`. -/
def ostream.put_task_state (out : ostream) (E : pfs.task_state) (state : Int) : ostream :=
  if state = E.running then out.put_str "Running"
  else if state = E.sleeping then out.put_str "Sleeping"
  else if state = E.disk_sleep then out.put_str "Disk-Sleep"
  else if state = E.stopped then out.put_str "Stopped"
  else if state = E.tracing_stop then out.put_str "Tracing-Stop"
  else if state = E.zombie then out.put_str "Zombie"
  else if state = E.dead then out.put_str "Dead"
  else if state = E.wakekill then out.put_str "Wake-Kill"
  else if state = E.waking then out.put_str "Waking"
  else if state = E.parked then out.put_str "Parked"
  else if state = E.idle then out.put_str "Idle"
  else out.put_str "Unknown"

/-- The overload `operator<<(std::ostream&, const pfs::status::seccomp)`. -/
def ostream.put_seccomp (out : ostream) (E : pfs.status.seccomp) (seccomp : Int) : ostream :=
  if seccomp = E.disabled then out.put_str "Disabled"
  else if seccomp = E.strict then out.put_str "Strict"
  else if seccomp = E.filter then out.put_str "Filter"
  else out.put_str "Unknown"

/-- The overload `operator<<(std::ostream&, const pfs::module::state)`. -/
def ostream.put_module_state (out : ostream) (E : pfs.module.state) (state : Int) : ostream :=
  if state = E.live then out.put_str "Live"
  else if state = E.loading then out.put_str "Loading"
  else if state = E.unloading then out.put_str "Unloading"
  else out.put_str "Unknown"

/-! ## Helpers of the formatters -/

/-- The member `pop_back()` of `std::string`: the last character removed. -/
def pop_back (s : String) : String := String.mk s.data.dropLast

/-- The template `join`: every element followed by a comma is inserted into a
fresh string stream and the last comma is removed.  `put` is the overload of
`operator<<` for the element type; the container is the sequence of its
elements in iteration order. -/
def join {α : Type} (put : ostream → α → ostream) (container : List α) : String :=
  if container.isEmpty then ""
  else
    let out := container.foldl (fun out v => (put out v).put_char ',') ostringstream
    let out_str := out.str
    pop_back out_str

/-- The function `is_printable`; a `uint8_t` is a natural number below 256. -/
def is_printable (byte : Nat) : Bool :=
  let PRINTABLE_MIN := 0x21
  let PRINTABLE_MAX := 0x7e
  decide (PRINTABLE_MIN ≤ byte) && decide (byte ≤ PRINTABLE_MAX)

/-- The function `hexlify`; `static_cast<char>(v)` of a printable byte is the
character with that code. -/
def hexlify (buffer : List Nat) : String :=
  let out := ostringstream.hex
  let out := buffer.foldl
    (fun out v =>
      let c := if is_printable v then Char.ofNat v else '.'
      out.put_char c)
    out
  out.str

/-- The function `to_octal_mask`; a `uint64_t` is a natural number. -/
def to_octal_mask (mask : Nat) : String :=
  let out := ostringstream
  let out := out |>.oct |>.setfill '0' |>.setw 4 |>.put_unsigned mask
  out.str

/-- The function `to_hex_mask`; a `uint64_t` is a natural number. -/
def to_hex_mask (mask : Nat) : String :=
  let out := ostringstream
  let out := out |>.hex |>.setfill '0' |>.setw 16 |>.put_unsigned mask
  out.str

/-! ## Floating-point insertion

`operator<<(double)` on a stream whose precision and notation are the default
ones converts as `printf("%g")` does with precision 6: the exact value is
rounded (to nearest, ties to even) to six significant decimal digits; with
decimal exponent `x`, fixed notation is used when `-4 ≤ x < 6` and scientific
notation otherwise, and trailing zeros of the fraction are removed. -/

/-- A value of type `double`: a finite value `± significand · 2 ^ exponent`,
an infinity or a NaN. -/
inductive double
  | finite (negative : Bool) (significand : Nat) (exponent : Int)
  | infinite (negative : Bool)
  | nan (negative : Bool)

/-- The largest `k` (at most `fuel` above the start) with `den · 10 ^ k ≤ num`,
searching upward from `k`. -/
def exp10_up (num den : Nat) : Nat → Nat → Nat
  | 0, k => k
  | fuel + 1, k => if den * 10 ^ (k + 1) ≤ num then exp10_up num den fuel (k + 1) else k

/-- The smallest `k` from the start on with `den ≤ num · 10 ^ k`. -/
def exp10_down (num den : Nat) : Nat → Nat → Nat
  | 0, k => k
  | fuel + 1, k => if den ≤ num * 10 ^ k then k else exp10_down num den fuel (k + 1)

/-- The decimal exponent of the positive fraction `num / den`: the `x` with
`10 ^ x ≤ num / den < 10 ^ (x + 1)`. -/
def decimal_exponent (num den : Nat) : Int :=
  if den ≤ num then (exp10_up num den num 0 : Int) else - (exp10_down num den den 1 : Int)

/-- The fraction `n / d` rounded to the nearest integer, ties to even. -/
def round_half_even (n d : Nat) : Nat :=
  let q := n / d
  let r := n % d
  if d < 2 * r ∨ (2 * r = d ∧ q % 2 = 1) then q + 1 else q

/-- The fraction `num / den` scaled by `10 ^ (5 - x)` and rounded: its six
significant digits as an integer. -/
def significant (num den : Nat) (x : Int) : Nat :=
  if x ≤ 5 then round_half_even (num * 10 ^ (5 - x).toNat) den
  else round_half_even num (den * 10 ^ (x - 5).toNat)

/-- The digits without their trailing zeros. -/
def strip_zeros (l : List Char) : List Char :=
  (l.reverse.dropWhile (fun c => c = '0')).reverse

/-- The conversion `%g` of the positive fraction `num / den`. -/
def format_g (num den : Nat) : String :=
  let x0 := decimal_exponent num den
  let s0 := significant num den x0
  let x := if s0 = 10 ^ 6 then x0 + 1 else x0
  let s := if s0 = 10 ^ 6 then 10 ^ 5 else s0
  let ds := numeral_aux 10 6 s
  if -4 ≤ x ∧ x < 6 then
    let whole := if 0 ≤ x then ds.take (x.toNat + 1) else ['0']
    let frac := strip_zeros
      (if 0 ≤ x then ds.drop (x.toNat + 1) else List.replicate ((-x).toNat - 1) '0' ++ ds)
    String.mk (whole ++ (if frac = [] then [] else '.' :: frac))
  else
    let frac := strip_zeros (ds.drop 1)
    let e := numeral 10 x.natAbs
    String.mk (ds.take 1 ++ (if frac = [] then [] else '.' :: frac))
      ++ "e" ++ (if x < 0 then "-" else "+") ++ (if x.natAbs < 10 then "0" ++ e else e)

/-- The text of a `double` in the default floating-point format. -/
def double.text : double → String
  | double.finite negative significand exponent =>
    (if negative then "-" else "") ++
      (if significand = 0 then "0"
       else if 0 ≤ exponent then format_g (significand * 2 ^ exponent.toNat) 1
       else format_g significand (2 ^ (-exponent).toNat))
  | double.infinite negative => (if negative then "-" else "") ++ "inf"
  | double.nan negative => (if negative then "-" else "") ++ "nan"

/-- Insertion of a `double`. -/
def ostream.put_double (out : ostream) (v : double) : ostream := out.write v.text

/-! ## Entities

The records are declared in `pfs/types.hpp`, which is not among the sources.
Each record below has the fields that its inserter reads, in the order of the
reads; `pfs::status` has in addition the namespace ids `ns_tgid` and `ns_pid`,
named by the labels of its inserter.  A field of an unsigned integer type is a `Nat`, a field of a signed
integer type is an `Int` (inserted with the width of its type), a field of an
enumeration type is the `Int` value of the enumeration, a `std::string` is a
`String` and a container is the `List` of its elements in iteration order. -/

namespace pfs

/-- Modelled from the spec: the address type `pfs::ip` and its member
`to_string()` are declared outside the sources; an address is represented by
the text that `to_string()` returns. -/
structure ip where
  to_string : String

/-- The record `pfs::socket`. -/
structure socket where
  slot : Nat
  local_ip : ip
  local_port : Nat
  remote_ip : ip
  remote_port : Nat
  current_state : Int
  tx_queue : Nat
  rx_queue : Nat
  timer_active : Int
  timer_expire_jiffies : Nat
  retransmits : Nat
  uid : Nat
  timeouts : Nat
  inode : Nat
  ref_count : Int
  skbuff : Nat

/-- The record `pfs::unix_domain_socket`. -/
structure unix_domain_socket where
  skbuff : Nat
  ref_count : Int
  protocol : Int
  flags : Int
  socket_type : Int
  socket_state : Int
  inode : Nat
  path : String

/-- The record `pfs::status::uid_set`. -/
structure status.uid_set where
  real : Nat
  effective : Nat
  saved_set : Nat
  filesystem : Nat

/-- A signal mask, read through its member `raw`. -/
structure signal_mask where
  raw : Nat

/-- A capabilities mask, read through its member `raw`. -/
structure capabilities_mask where
  raw : Nat

/-- The record `pfs::status`. -/
structure status where
  name : String
  umask : Nat
  state : Int
  tgid : Int
  ngid : Int
  pid : Int
  ppid : Int
  tracer_pid : Int
  uid : status.uid_set
  gid : status.uid_set
  fd_size : Nat
  groups : List Nat
  ns_tgid : Int
  ns_pid : Int
  ns_pgid : Int
  ns_sid : Int
  vm_peak : Nat
  vm_size : Nat
  vm_lck : Nat
  vm_pin : Nat
  vm_hwm : Nat
  vm_rss : Nat
  rss_anon : Nat
  rss_file : Nat
  rss_shmem : Nat
  vm_data : Nat
  vm_stk : Nat
  vm_exe : Nat
  vm_lib : Nat
  vm_pte : Nat
  vm_swap : Nat
  huge_tlb_pages : Nat
  core_dumping : Bool
  threads : Nat
  sig_q : Nat × Nat
  sig_pnd : signal_mask
  shd_pnd : signal_mask
  sig_blk : signal_mask
  sig_ign : signal_mask
  sig_cgt : signal_mask
  cap_inh : capabilities_mask
  cap_prm : capabilities_mask
  cap_eff : capabilities_mask
  cap_bnd : capabilities_mask
  cap_amb : capabilities_mask
  no_new_privs : Bool
  seccomp_mode : Int
  voluntary_ctxt_switches : Nat
  nonvoluntary_ctxt_switches : Nat

/-- The record `pfs::stat`. -/
structure stat where
  pid : Int
  comm : String
  state : Int
  ppid : Int
  pgrp : Int
  session : Int
  tty_nr : Int
  tgpid : Int
  flags : Nat
  minflt : Nat
  cminflt : Nat
  majflt : Nat
  cmajflt : Nat
  utime : Nat
  stime : Nat
  cutime : Int
  cstime : Int
  priority : Int
  nice : Int
  num_threads : Int
  itrealvalue : Int
  starttime : Nat
  vsize : Nat
  rss : Int
  rsslim : Nat
  startcode : Nat
  endcode : Nat
  startstack : Nat
  kstkesp : Nat
  kstkeip : Nat
  signal : Nat
  blocked : Nat
  sigignore : Nat
  sigcatch : Nat
  wchan : Nat
  nswap : Nat
  cnswap : Nat
  exit_signal : Int
  processor : Int
  rt_priority : Nat
  policy : Nat
  delayacct_blkio_ticks : Nat
  guest_time : Nat
  cguest_time : Int
  start_data : Nat
  end_data : Nat
  start_brk : Nat
  arg_start : Nat
  arg_end : Nat
  env_start : Nat
  env_end : Nat
  exit_code : Int

/-- The record `pfs::mem_stats`. -/
structure mem_stats where
  total : Nat
  resident : Nat
  shared : Nat
  text : Nat
  data : Nat

/-- The record `pfs::mem_perm`. -/
structure mem_perm where
  can_read : Bool
  can_write : Bool
  can_execute : Bool
  is_shared : Bool

/-- The record `pfs::mem_region`. -/
structure mem_region where
  start_address : Nat
  end_address : Nat
  perm : mem_perm
  offset : Nat
  device : Nat
  inode : Nat
  pathname : String

/-- The record `pfs::mount`. -/
structure mount where
  id : Nat
  parent_id : Nat
  device : Nat
  root : String
  point : String
  options : List String
  optional : List String
  filesystem_type : String
  source : String
  super_options : List String

/-- The record `pfs::module`. -/
structure module where
  name : String
  size : Nat
  instances : Nat
  dependencies : List String
  current_state : Int
  offset : Nat
  is_out_of_tree : Bool
  is_unsigned : Bool

/-- The record `pfs::load_average`. -/
structure load_average where
  last_1min : double
  last_5min : double
  last_15min : double
  runnable_tasks : Int
  total_tasks : Int
  last_created_task : Int

/-- The record `pfs::zone`. -/
structure zone where
  name : String
  chunks : List Nat

end pfs

/-! ## Entity inserters

One statement of the source is one `let`: the insertions of the statement,
left to right. -/

/-- The overload `operator<<(std::ostream&, const pfs::socket& socket)`. -/
def ostream.put_socket (out : ostream) (T : pfs.socket.timer) (S : pfs.socket.state)
    (socket : pfs.socket) : ostream :=
  let out := out |>.put_str "slot[" |>.put_unsigned socket.slot |>.put_str "] "
  let out := out |>.put_str "local[" |>.put_str socket.local_ip.to_string |>.put_str ":"
    |>.put_unsigned socket.local_port |>.put_str "] "
  let out := out |>.put_str "remote[" |>.put_str socket.remote_ip.to_string |>.put_str ":"
    |>.put_unsigned socket.remote_port |>.put_str "] "
  let out := out |>.put_str "state[" |>.put_socket_state S socket.current_state |>.put_str "] "
  let out := out |>.put_str "tx_queue[" |>.put_unsigned socket.tx_queue |>.put_str "] "
  let out := out |>.put_str "rx_queue[" |>.put_unsigned socket.rx_queue |>.put_str "] "
  let out := out |>.put_str "timer[" |>.put_socket_timer T socket.timer_active |>.put_str "] "
  let out := out |>.put_str "timer_expire[" |>.put_unsigned socket.timer_expire_jiffies
    |>.put_str "] "
  let out := out |>.put_str "retransmits[" |>.put_unsigned socket.retransmits |>.put_str "] "
  let out := out |>.put_str "uid[" |>.put_unsigned socket.uid |>.put_str "] "
  let out := out |>.put_str "timeouts[" |>.put_unsigned socket.timeouts |>.put_str "] "
  let out := out |>.put_str "inode[" |>.put_unsigned socket.inode |>.put_str "] "
  let out := out |>.put_str "ref_count[" |>.put_signed 32 socket.ref_count |>.put_str "] "
  let out := out |>.put_str "skbuff[0x" |>.hex |>.put_unsigned socket.skbuff |>.dec |>.put_str "] "
  out

/-- The overload `operator<<(std::ostream&, const pfs::unix_domain_socket& uds)`. -/
def ostream.put_unix_domain_socket (out : ostream) (T : pfs.unix_domain_socket.type)
    (S : pfs.unix_domain_socket.state) (uds : pfs.unix_domain_socket) : ostream :=
  let out := out |>.put_str "skbuff[0x" |>.hex |>.put_unsigned uds.skbuff |>.dec |>.put_str "] "
  let out := out |>.put_str "ref_count[" |>.put_signed 32 uds.ref_count |>.put_str "] "
  let out := out |>.put_str "protocol[" |>.put_signed 32 uds.protocol |>.put_str "] "
  let out := out |>.put_str "flags[" |>.put_signed 32 uds.flags |>.put_str "] "
  let out := out |>.put_str "type[" |>.put_unix_domain_socket_type T uds.socket_type |>.put_str "] "
  let out := out |>.put_str "state[" |>.put_unix_domain_socket_state S uds.socket_state
    |>.put_str "] "
  let out := out |>.put_str "inode[" |>.put_unsigned uds.inode |>.put_str "] "
  let out := out |>.put_str "path[" |>.put_str uds.path |>.put_str "] "
  out

/-- The overload `operator<<(std::ostream&, const pfs::status::uid_set& set)`. -/
def ostream.put_uid_set (out : ostream) (set : pfs.status.uid_set) : ostream :=
  let out := out |>.put_unsigned set.real |>.put_char ','
  let out := out |>.put_unsigned set.effective |>.put_char ','
  let out := out |>.put_unsigned set.saved_set |>.put_char ','
  let out := out |>.put_unsigned set.filesystem
  out

/-- The overload `operator<<(std::ostream&, const pfs::status& st)`. -/
def ostream.put_status (out : ostream) (TS : pfs.task_state) (SC : pfs.status.seccomp)
    (st : pfs.status) : ostream :=
  let out := out |>.put_str "name[" |>.put_str st.name |>.put_str "] "
  let out := out |>.put_str "umask[" |>.put_str (to_octal_mask st.umask) |>.put_str "] "
  let out := out |>.put_str "state[" |>.put_task_state TS st.state |>.put_str "] "
  let out := out |>.put_str "tgid[" |>.put_signed 32 st.tgid |>.put_str "] "
  let out := out |>.put_str "ngid[" |>.put_signed 32 st.ngid |>.put_str "] "
  let out := out |>.put_str "pid[" |>.put_signed 32 st.pid |>.put_str "] "
  let out := out |>.put_str "ppid[" |>.put_signed 32 st.ppid |>.put_str "] "
  let out := out |>.put_str "tracer_pid[" |>.put_signed 32 st.tracer_pid |>.put_str "] "
  let out := out |>.put_str "uid[" |>.put_uid_set st.uid |>.put_str "] "
  let out := out |>.put_str "gid[" |>.put_uid_set st.gid |>.put_str "] "
  let out := out |>.put_str "fdsize[" |>.put_unsigned st.fd_size |>.put_str "] "
  let out := out |>.put_str "groups[" |>.put_str (join ostream.put_unsigned st.groups)
    |>.put_str "] "
  let out := out |>.put_str "ns_tgid[" |>.put_signed 32 st.tgid |>.put_str "] "
  let out := out |>.put_str "ns_pid[" |>.put_signed 32 st.pid |>.put_str "] "
  let out := out |>.put_str "ns_pgid[" |>.put_signed 32 st.ns_pgid |>.put_str "] "
  let out := out |>.put_str "ns_sid[" |>.put_signed 32 st.ns_sid |>.put_str "] "
  let out := out |>.put_str "vm_peak[" |>.put_unsigned st.vm_peak |>.put_str "] "
  let out := out |>.put_str "vm_size[" |>.put_unsigned st.vm_size |>.put_str "] "
  let out := out |>.put_str "vm_lck[" |>.put_unsigned st.vm_lck |>.put_str "] "
  let out := out |>.put_str "vm_pin[" |>.put_unsigned st.vm_pin |>.put_str "] "
  let out := out |>.put_str "vm_hwm[" |>.put_unsigned st.vm_hwm |>.put_str "] "
  let out := out |>.put_str "vm_rss[" |>.put_unsigned st.vm_rss |>.put_str "] "
  let out := out |>.put_str "rss_anon[" |>.put_unsigned st.rss_anon |>.put_str "] "
  let out := out |>.put_str "rss_file[" |>.put_unsigned st.rss_file |>.put_str "] "
  let out := out |>.put_str "rss_shmem[" |>.put_unsigned st.rss_shmem |>.put_str "] "
  let out := out |>.put_str "vm_data[" |>.put_unsigned st.vm_data |>.put_str "] "
  let out := out |>.put_str "vm_stk[" |>.put_unsigned st.vm_stk |>.put_str "] "
  let out := out |>.put_str "vm_exe[" |>.put_unsigned st.vm_exe |>.put_str "] "
  let out := out |>.put_str "vm_lib[" |>.put_unsigned st.vm_lib |>.put_str "] "
  let out := out |>.put_str "vm_pte[" |>.put_unsigned st.vm_pte |>.put_str "] "
  let out := out |>.put_str "vm_swap[" |>.put_unsigned st.vm_swap |>.put_str "] "
  let out := out |>.put_str "huge_tlb_pages[" |>.put_unsigned st.huge_tlb_pages |>.put_str "] "
  let out := out |>.put_str "core_dumping[" |>.set_boolalpha |>.put_bool st.core_dumping
    |>.noboolalpha |>.put_str "] "
  let out := out |>.put_str "threads[" |>.put_unsigned st.threads |>.put_str "] "
  let out := out |>.put_str "sig_q[" |>.put_unsigned st.sig_q.1 |>.put_str "/"
    |>.put_unsigned st.sig_q.2 |>.put_str "] "
  let out := out |>.put_str "sig_pnd[" |>.put_str (to_hex_mask st.sig_pnd.raw) |>.put_str "] "
  let out := out |>.put_str "shd_pnd[" |>.put_str (to_hex_mask st.shd_pnd.raw) |>.put_str "] "
  let out := out |>.put_str "sig_blk[" |>.put_str (to_hex_mask st.sig_blk.raw) |>.put_str "] "
  let out := out |>.put_str "sig_ign[" |>.put_str (to_hex_mask st.sig_ign.raw) |>.put_str "] "
  let out := out |>.put_str "sig_cgt[" |>.put_str (to_hex_mask st.sig_cgt.raw) |>.put_str "] "
  let out := out |>.put_str "cap_inh[" |>.put_str (to_hex_mask st.cap_inh.raw) |>.put_str "] "
  let out := out |>.put_str "cap_prm[" |>.put_str (to_hex_mask st.cap_prm.raw) |>.put_str "] "
  let out := out |>.put_str "cap_eff[" |>.put_str (to_hex_mask st.cap_eff.raw) |>.put_str "] "
  let out := out |>.put_str "cap_bnd[" |>.put_str (to_hex_mask st.cap_bnd.raw) |>.put_str "] "
  let out := out |>.put_str "cap_amb[" |>.put_str (to_hex_mask st.cap_amb.raw) |>.put_str "] "
  let out := out |>.put_str "no_new_privs[" |>.set_boolalpha |>.put_bool st.no_new_privs
    |>.noboolalpha |>.put_str "] "
  let out := out |>.put_str "seccomp[" |>.put_seccomp SC st.seccomp_mode |>.put_str "] "
  let out := out |>.put_str "voluntary_ctxt_switches[" |>.put_unsigned st.voluntary_ctxt_switches
    |>.put_str "] "
  let out := out |>.put_str "nonvoluntary_ctxt_switches["
    |>.put_unsigned st.nonvoluntary_ctxt_switches |>.put_str "] "
  out

/-- The overload `operator<<(std::ostream&, const pfs::stat& st)`. -/
def ostream.put_stat (out : ostream) (TS : pfs.task_state) (st : pfs.stat) : ostream :=
  let out := out |>.put_str "pid[" |>.put_signed 32 st.pid |>.put_str "] "
  let out := out |>.put_str "comm[" |>.put_str st.comm |>.put_str "] "
  let out := out |>.put_str "state[" |>.put_task_state TS st.state |>.put_str "] "
  let out := out |>.put_str "ppid[" |>.put_signed 32 st.ppid |>.put_str "] "
  let out := out |>.put_str "pgrp[" |>.put_signed 32 st.pgrp |>.put_str "] "
  let out := out |>.put_str "session[" |>.put_signed 32 st.session |>.put_str "] "
  let out := out |>.put_str "tty_nr[" |>.put_signed 32 st.tty_nr |>.put_str "] "
  let out := out |>.put_str "tgpid[" |>.put_signed 32 st.tgpid |>.put_str "] "
  let out := out |>.put_str "flags[" |>.put_unsigned st.flags |>.put_str "] "
  let out := out |>.put_str "minflt[" |>.put_unsigned st.minflt |>.put_str "] "
  let out := out |>.put_str "cminflt[" |>.put_unsigned st.cminflt |>.put_str "] "
  let out := out |>.put_str "majflt[" |>.put_unsigned st.majflt |>.put_str "] "
  let out := out |>.put_str "cmajflt[" |>.put_unsigned st.cmajflt |>.put_str "] "
  let out := out |>.put_str "utime[" |>.put_unsigned st.utime |>.put_str "] "
  let out := out |>.put_str "stime[" |>.put_unsigned st.stime |>.put_str "] "
  let out := out |>.put_str "cutime[" |>.put_signed 64 st.cutime |>.put_str "] "
  let out := out |>.put_str "cstime[" |>.put_signed 64 st.cstime |>.put_str "] "
  let out := out |>.put_str "priority[" |>.put_signed 64 st.priority |>.put_str "] "
  let out := out |>.put_str "nice[" |>.put_signed 64 st.nice |>.put_str "] "
  let out := out |>.put_str "num_threads[" |>.put_signed 64 st.num_threads |>.put_str "] "
  let out := out |>.put_str "itrealvalue[" |>.put_signed 64 st.itrealvalue |>.put_str "] "
  let out := out |>.put_str "starttime[" |>.put_unsigned st.starttime |>.put_str "] "
  let out := out |>.put_str "vsize[" |>.put_unsigned st.vsize |>.put_str "] "
  let out := out |>.put_str "rss[" |>.put_signed 64 st.rss |>.put_str "] "
  let out := out |>.put_str "rsslim[" |>.put_unsigned st.rsslim |>.put_str "] "
  let out := out |>.put_str "startcode[" |>.put_unsigned st.startcode |>.put_str "] "
  let out := out |>.put_str "endcode[" |>.put_unsigned st.endcode |>.put_str "] "
  let out := out |>.put_str "startstack[" |>.put_unsigned st.startstack |>.put_str "] "
  let out := out |>.put_str "kstkesp[" |>.put_unsigned st.kstkesp |>.put_str "] "
  let out := out |>.put_str "kstkeip[" |>.put_unsigned st.kstkeip |>.put_str "] "
  let out := out |>.put_str "signal[" |>.put_unsigned st.signal |>.put_str "] "
  let out := out |>.put_str "blocked[" |>.put_unsigned st.blocked |>.put_str "] "
  let out := out |>.put_str "sigignore[" |>.put_unsigned st.sigignore |>.put_str "] "
  let out := out |>.put_str "sigcatch[" |>.put_unsigned st.sigcatch |>.put_str "] "
  let out := out |>.put_str "wchan[" |>.put_unsigned st.wchan |>.put_str "] "
  let out := out |>.put_str "nswap[" |>.put_unsigned st.nswap |>.put_str "] "
  let out := out |>.put_str "cnswap[" |>.put_unsigned st.cnswap |>.put_str "] "
  let out := out |>.put_str "exit_signal[" |>.put_signed 32 st.exit_signal |>.put_str "] "
  let out := out |>.put_str "processor[" |>.put_signed 32 st.processor |>.put_str "] "
  let out := out |>.put_str "rt_priority[" |>.put_unsigned st.rt_priority |>.put_str "] "
  let out := out |>.put_str "policy[" |>.put_unsigned st.policy |>.put_str "] "
  let out := out |>.put_str "delayacct_blkio_ticks[" |>.put_unsigned st.delayacct_blkio_ticks
    |>.put_str "] "
  let out := out |>.put_str "guest_time[" |>.put_unsigned st.guest_time |>.put_str "] "
  let out := out |>.put_str "cguest_time[" |>.put_signed 64 st.cguest_time |>.put_str "] "
  let out := out |>.put_str "start_data[" |>.put_unsigned st.start_data |>.put_str "] "
  let out := out |>.put_str "end_data[" |>.put_unsigned st.end_data |>.put_str "] "
  let out := out |>.put_str "start_brk[" |>.put_unsigned st.start_brk |>.put_str "] "
  let out := out |>.put_str "arg_start[" |>.put_unsigned st.arg_start |>.put_str "] "
  let out := out |>.put_str "arg_end[" |>.put_unsigned st.arg_end |>.put_str "]"
  let out := out |>.put_str "env_start[" |>.put_unsigned st.env_start |>.put_str "] "
  let out := out |>.put_str "env_end[" |>.put_unsigned st.env_end |>.put_str "]"
  let out := out |>.put_str "exit_code[" |>.put_signed 32 st.exit_code |>.put_str "]"
  out

/-- The overload `operator<<(std::ostream&, const pfs::mem_stats& mem)`. -/
def ostream.put_mem_stats (out : ostream) (mem : pfs.mem_stats) : ostream :=
  let out := out |>.put_str "total[" |>.put_unsigned mem.total |>.put_str "] "
  let out := out |>.put_str "resident[" |>.put_unsigned mem.resident |>.put_str "] "
  let out := out |>.put_str "shared[" |>.put_unsigned mem.shared |>.put_str "] "
  let out := out |>.put_str "text[" |>.put_unsigned mem.text |>.put_str "] "
  let out := out |>.put_str "data[" |>.put_unsigned mem.data |>.put_str "]"
  out

/-- The overload `operator<<(std::ostream&, const pfs::mem_perm& perm)`. -/
def ostream.put_mem_perm (out : ostream) (perm : pfs.mem_perm) : ostream :=
  let out := out |>.put_char (if perm.can_read then 'r' else '-')
  let out := out |>.put_char (if perm.can_write then 'w' else '-')
  let out := out |>.put_char (if perm.can_execute then 'x' else '-')
  let out := out |>.put_char (if perm.is_shared then 's' else 'p')
  out

/-- The overload `operator<<(std::ostream&, const pfs::mem_region& region)`. -/
def ostream.put_mem_region (out : ostream) (region : pfs.mem_region) : ostream :=
  let out := out |>.hex
  let out := out |>.put_str "addr[0x" |>.put_unsigned region.start_address |>.put_str "]-[0x"
    |>.put_unsigned region.end_address |>.put_str "] "
  let out := out |>.put_str "perm[" |>.put_mem_perm region.perm |>.put_str "]"
  let out := out |>.put_str "offset[0x" |>.put_unsigned region.offset |>.put_str "] "
  let out := out |>.put_str "device[" |>.put_unsigned region.device |>.put_str "] "
  let out := out |>.dec
  let out := out |>.put_str "inode[" |>.put_unsigned region.inode |>.put_str "] "
  let out := out |>.put_str "pathname[" |>.put_str region.pathname |>.put_str "]"
  out

/-- The overload `operator<<(std::ostream&, const pfs::mount& mount)`. -/
def ostream.put_mount (out : ostream) (mount : pfs.mount) : ostream :=
  let out := out |>.put_str "id[" |>.put_unsigned mount.id |>.put_str "] "
  let out := out |>.put_str "parent_id[" |>.put_unsigned mount.parent_id |>.put_str "] "
  let out := out |>.put_str "device[" |>.put_unsigned mount.device |>.put_str "] "
  let out := out |>.put_str "root[" |>.put_str mount.root |>.put_str "] "
  let out := out |>.put_str "point[" |>.put_str mount.point |>.put_str "] "
  let out := out |>.put_str "options[" |>.put_str (join ostream.put_str mount.options)
    |>.put_str "] "
  let out := out |>.put_str "optional[" |>.put_str (join ostream.put_str mount.optional)
    |>.put_str "] "
  let out := out |>.put_str "fs[" |>.put_str mount.filesystem_type |>.put_str "] "
  let out := out |>.put_str "source[" |>.put_str mount.source |>.put_str "] "
  let out := out |>.put_str "super_options[" |>.put_str (join ostream.put_str mount.super_options)
    |>.put_str "] "
  out

/-- The overload `operator<<(std::ostream&, const pfs::module& module)`. -/
def ostream.put_module (out : ostream) (S : pfs.module.state) (module : pfs.module) : ostream :=
  let out := out |>.put_str "name[" |>.put_str module.name |>.put_str "] "
  let out := out |>.put_str "size[" |>.put_unsigned module.size |>.put_str "] "
  let out := out |>.put_str "instances[" |>.put_unsigned module.instances |>.put_str "] "
  let out := out |>.put_str "dependencies[" |>.put_str (join ostream.put_str module.dependencies)
    |>.put_str "] "
  let out := out |>.put_str "state[" |>.put_module_state S module.current_state |>.put_str "] "
  let out := out |>.put_str "offset[" |>.put_unsigned module.offset |>.put_str "] "
  let out := out |>.set_boolalpha
  let out := out |>.put_str "out_of_tree[" |>.put_bool module.is_out_of_tree |>.put_str "] "
  let out := out |>.put_str "unsigned[" |>.put_bool module.is_unsigned |>.put_str "] "
  out

/-- The overload `operator<<(std::ostream&, const pfs::load_average& load)`. -/
def ostream.put_load_average (out : ostream) (load : pfs.load_average) : ostream :=
  let out := out |>.put_str "load[" |>.put_double load.last_1min |>.put_str ", "
    |>.put_double load.last_5min |>.put_str ", " |>.put_double load.last_15min |>.put_str "] "
  let out := out |>.put_str "runnable_tasks[" |>.put_signed 32 load.runnable_tasks |>.put_str "] "
  let out := out |>.put_str "total_tasks[" |>.put_signed 32 load.total_tasks |>.put_str "] "
  let out := out |>.put_str "last_created_task[" |>.put_signed 32 load.last_created_task
    |>.put_str "] "
  out

/-- The overload `operator<<(std::ostream&, const pfs::zone& zone)`. -/
def ostream.put_zone (out : ostream) (zone : pfs.zone) : ostream :=
  let out := out |>.put_str "zone[" |>.put_str zone.name |>.put_str "] "
  let out := out |>.put_str "chunks[" |>.put_str (join ostream.put_unsigned zone.chunks)
    |>.put_str "] "
  out


instance (E : pfs.socket.timer) : Decidable E.distinct :=
  inferInstanceAs (Decidable E.values.Nodup)

instance (E : pfs.socket.state) : Decidable E.distinct :=
  inferInstanceAs (Decidable E.values.Nodup)

instance (E : pfs.unix_domain_socket.type) : Decidable E.distinct :=
  inferInstanceAs (Decidable E.values.Nodup)

instance (E : pfs.unix_domain_socket.state) : Decidable E.distinct :=
  inferInstanceAs (Decidable E.values.Nodup)

instance (E : pfs.task_state) : Decidable E.distinct :=
  inferInstanceAs (Decidable E.values.Nodup)

instance (E : pfs.status.seccomp) : Decidable E.distinct :=
  inferInstanceAs (Decidable E.values.Nodup)

instance (E : pfs.module.state) : Decidable E.distinct :=
  inferInstanceAs (Decidable E.values.Nodup)

/-! ## The shape of a `switch` over labels -/

/-- The label selected by a `switch` whose `case`s are the pairs of `table`, in
order, and whose `default` is "Unknown". -/
def switch_label : List (Int × String) → Int → String
  | [], _ => "Unknown"
  | (k, l) :: rest, v => if v = k then l else switch_label rest v

/-! ## Sample declarations

Declarations of the seven enumerations used to evaluate the inserters on
concrete entities: the enumerators are numbered consecutively in the order of
the `case` labels, from 0, and from 1 for `pfs::socket::state`, whose
enumerator `established` has the value 1. -/

/-- A declaration of `pfs::socket::timer`. -/
def sample_socket_timer : pfs.socket.timer := ⟨0, 1, 2, 3, 4⟩

/-- A declaration of `pfs::socket::state`. -/
def sample_socket_state : pfs.socket.state := ⟨1, 2, 3, 4, 5, 6, 7, 8, 9, 10, 11⟩

/-- A declaration of `pfs::unix_domain_socket::type`. -/
def sample_unix_domain_socket_type : pfs.unix_domain_socket.type := ⟨0, 1, 2⟩

/-- A declaration of `pfs::unix_domain_socket::state`. -/
def sample_unix_domain_socket_state : pfs.unix_domain_socket.state := ⟨0, 1, 2, 3, 4⟩

/-- A declaration of `pfs::task_state`. -/
def sample_task_state : pfs.task_state := ⟨0, 1, 2, 3, 4, 5, 6, 7, 8, 9, 10⟩

/-- A declaration of `pfs::status::seccomp`. -/
def sample_seccomp : pfs.status.seccomp := ⟨0, 1, 2⟩

/-- A declaration of `pfs::module::state`. -/
def sample_module_state : pfs.module.state := ⟨0, 1, 2⟩

/-! ## Sample entities -/

/-- A socket in the state `established` (raw value 1). -/
def sample_socket : pfs.socket :=
  { slot := 0, local_ip := ⟨"127.0.0.1"⟩, local_port := 8080, remote_ip := ⟨"10.0.0.2"⟩,
    remote_port := 443, current_state := 1, tx_queue := 0, rx_queue := 0, timer_active := 0,
    timer_expire_jiffies := 0, retransmits := 0, uid := 1000, timeouts := 0, inode := 12345,
    ref_count := 1, skbuff := 255 }

/-- A socket whose state is the value of no enumerator. -/
def sample_socket_unknown : pfs.socket := { sample_socket with current_state := 42 }

/-- The load averages 0.5, 0.3 and 0.1 (the doubles nearest to them: 1 · 2⁻¹,
5404319552844595 · 2⁻⁵⁴ and 3602879701896397 · 2⁻⁵⁵) with 3 runnable tasks,
120 tasks and last created task 4821. -/
def sample_load_average : pfs.load_average :=
  { last_1min := double.finite false 1 (-1),
    last_5min := double.finite false 5404319552844595 (-54),
    last_15min := double.finite false 3602879701896397 (-55),
    runnable_tasks := 3, total_tasks := 120, last_created_task := 4821 }

/-- A process accounting record. -/
def sample_stat : pfs.stat :=
  { pid := 1, comm := "(init)", state := 1, ppid := 0, pgrp := 1, session := 1, tty_nr := 0,
    tgpid := -1, flags := 4194560, minflt := 10, cminflt := 11, majflt := 12, cmajflt := 13,
    utime := 14, stime := 15, cutime := 16, cstime := 17, priority := 20, nice := 0,
    num_threads := 1, itrealvalue := 0, starttime := 22, vsize := 23, rss := 24, rsslim := 25,
    startcode := 26, endcode := 27, startstack := 28, kstkesp := 29, kstkeip := 30,
    signal := 31, blocked := 32, sigignore := 33, sigcatch := 34, wchan := 35, nswap := 36,
    cnswap := 37, exit_signal := 17, processor := 39, rt_priority := 40, policy := 41,
    delayacct_blkio_ticks := 42, guest_time := 43, cguest_time := 44, start_data := 45,
    end_data := 46, start_brk := 47, arg_start := 48, arg_end := 49, env_start := 50,
    env_end := 51, exit_code := 0 }

/-- A mapped memory region. -/
def sample_mem_region : pfs.mem_region :=
  { start_address := 0x400000, end_address := 0x452000,
    perm := { can_read := true, can_write := false, can_execute := true, is_shared := false },
    offset := 0, device := 0x801, inode := 1234, pathname := "/bin/cat" }

/-- A loaded kernel module whose load offset is 255. -/
def sample_module : pfs.module :=
  { name := "ext4", size := 737280, instances := 1, dependencies := ["mbcache", "jbd2"],
    current_state := 0, offset := 255, is_out_of_tree := false, is_unsigned := true }

/-- A Unix-domain socket whose backing buffer is at the address 255. -/
def sample_unix_domain_socket : pfs.unix_domain_socket :=
  { skbuff := 255, ref_count := 2, protocol := 0, flags := 65536, socket_type := 0,
    socket_state := 1, inode := 4321, path := "/run/dbus" }

/-- A process status whose namespace ids `ns_tgid` and `ns_pid` differ from its
`tgid` and `pid`. -/
def sample_status : pfs.status :=
  { name := "cat", umask := 18, state := 0, tgid := 100, ngid := 0, pid := 101, ppid := 1,
    tracer_pid := 0, uid := ⟨1000, 1001, 1002, 1003⟩, gid := ⟨2000, 2001, 2002, 2003⟩,
    fd_size := 64, groups := [4, 24, 27], ns_tgid := 7, ns_pid := 8, ns_pgid := 9,
    ns_sid := 10, vm_peak := 11, vm_size := 12, vm_lck := 13, vm_pin := 14, vm_hwm := 15,
    vm_rss := 16, rss_anon := 17, rss_file := 18, rss_shmem := 19, vm_data := 20,
    vm_stk := 21, vm_exe := 22, vm_lib := 23, vm_pte := 24, vm_swap := 25,
    huge_tlb_pages := 26, core_dumping := false, threads := 1, sig_q := (0, 63),
    sig_pnd := ⟨0⟩, shd_pnd := ⟨0⟩, sig_blk := ⟨65536⟩, sig_ign := ⟨4⟩, sig_cgt := ⟨0⟩,
    cap_inh := ⟨0⟩, cap_prm := ⟨0⟩, cap_eff := ⟨0⟩, cap_bnd := ⟨0x3fffffffff⟩, cap_amb := ⟨0⟩,
    no_new_privs := true, seccomp_mode := 2, voluntary_ctxt_switches := 5,
    nonvoluntary_ctxt_switches := 6 }

/-! ## Streams in the default state and the reading of numerals -/

/-- A stream in the default formatting state (decimal, `noboolalpha`, filled
with blanks, no pending width) that holds the characters `s`. -/
def default_stream (s : String) : ostream := ⟨s, basefield.dec, false, ' ', 0⟩

/-- The value of a digit character: 0 to 9 for the decimal digits, 10 to 15
for the letters a to f. -/
def digit_value (c : Char) : Nat :=
  if c.toNat < 'a'.toNat then c.toNat - '0'.toNat else c.toNat - 'a'.toNat + 10

/-- The number that the numeral `s` denotes in base `b`: the digits are read
from the most significant one. -/
def read_numeral (b : Nat) (s : String) : Nat :=
  s.data.foldl (fun acc c => acc * b + digit_value c) 0

/-! ## The stream operations -/

theorem padded_zero (c : Char) (s : String) : padded 0 c s = s := by
  apply String.ext
  simp [padded]

theorem write_eq_append {out : ostream} (hw : out.width = 0) (s : String) :
    out.write s = out.append s := by
  cases out
  simp only at hw
  subst hw
  simp [ostream.write, ostream.append, padded_zero]

theorem put_str_eq_append {out : ostream} (hw : out.width = 0) (s : String) :
    out.put_str s = out.append s :=
  write_eq_append hw s

/-! ## The enum-label inserters -/

theorem switch_label_of_mem (table : List (Int × String)) (k : Int) (l : String)
    (hk : (table.map Prod.fst).Nodup) (hm : (k, l) ∈ table) : switch_label table k = l := by
  induction table with
  | nil => simp at hm
  | cons p rest ih =>
    obtain ⟨k0, l0⟩ := p
    simp only [List.map_cons, List.nodup_cons, List.mem_map, Prod.exists, exists_and_right,
      exists_eq_right, not_exists] at hk
    simp only [List.mem_cons, Prod.mk.injEq] at hm
    rcases hm with ⟨rfl, rfl⟩ | hm
    · simp [switch_label]
    · have hne : k ≠ k0 := by
        rintro rfl
        exact hk.1 l hm
      simp [switch_label, hne, ih hk.2 hm]

theorem switch_label_of_not_mem (table : List (Int × String)) (v : Int)
    (hv : v ∉ table.map Prod.fst) : switch_label table v = "Unknown" := by
  induction table with
  | nil => rfl
  | cons p rest ih =>
    obtain ⟨k0, l0⟩ := p
    simp only [List.map_cons, List.mem_cons, not_or] at hv
    simp [switch_label, hv.1, ih hv.2]

theorem put_socket_timer_eq (out : ostream) (E : pfs.socket.timer) (v : Int) :
    out.put_socket_timer E v = out.put_str (switch_label
      [(E.none, "None"), (E.retransmit, "Retransmit"), (E.another, "Another"),
       (E.time_wait, "Time-Wait"), (E.zero_window, "Zero-Window")] v) := by
  simp only [ostream.put_socket_timer, switch_label, apply_ite (ostream.put_str out)]

theorem put_socket_timer_labels (out : ostream) (hw : out.width = 0)
    (E : pfs.socket.timer) (hE : E.distinct) :
    out.put_socket_timer E E.none = out.append "None" ∧
    out.put_socket_timer E E.retransmit = out.append "Retransmit" ∧
    out.put_socket_timer E E.another = out.append "Another" ∧
    out.put_socket_timer E E.time_wait = out.append "Time-Wait" ∧
    out.put_socket_timer E E.zero_window = out.append "Zero-Window" ∧
    ∀ v : Int, v ∉ E.values → out.put_socket_timer E v = out.append "Unknown" := by
  refine ⟨?_, ?_, ?_, ?_, ?_, fun v hv => ?_⟩
  case refine_6 =>
    rw [put_socket_timer_eq, put_str_eq_append hw]
    exact congrArg out.append (switch_label_of_not_mem _ _ hv)
  all_goals
    rw [put_socket_timer_eq, put_str_eq_append hw]
    exact congrArg out.append (switch_label_of_mem _ _ _ hE (by simp))

theorem put_socket_state_eq (out : ostream) (E : pfs.socket.state) (v : Int) :
    out.put_socket_state E v = out.put_str (switch_label
      [(E.established, "Established"), (E.syn_sent, "Syn-Sent"), (E.syn_recv, "Syn-Recv"),
       (E.fin_wait1, "Fin-Wait1"), (E.fin_wait2, "Fin-Wait2"), (E.time_wait, "Time-Wait"),
       (E.close, "Close"), (E.close_wait, "Close-Wait"), (E.last_ack, "Last-Ack"),
       (E.listen, "Listen"), (E.closing, "Closing")] v) := by
  simp only [ostream.put_socket_state, switch_label, apply_ite (ostream.put_str out)]

theorem put_socket_state_labels (out : ostream) (hw : out.width = 0)
    (E : pfs.socket.state) (hE : E.distinct) :
    out.put_socket_state E E.established = out.append "Established" ∧
    out.put_socket_state E E.syn_sent = out.append "Syn-Sent" ∧
    out.put_socket_state E E.syn_recv = out.append "Syn-Recv" ∧
    out.put_socket_state E E.fin_wait1 = out.append "Fin-Wait1" ∧
    out.put_socket_state E E.fin_wait2 = out.append "Fin-Wait2" ∧
    out.put_socket_state E E.time_wait = out.append "Time-Wait" ∧
    out.put_socket_state E E.close = out.append "Close" ∧
    out.put_socket_state E E.close_wait = out.append "Close-Wait" ∧
    out.put_socket_state E E.last_ack = out.append "Last-Ack" ∧
    out.put_socket_state E E.listen = out.append "Listen" ∧
    out.put_socket_state E E.closing = out.append "Closing" ∧
    ∀ v : Int, v ∉ E.values → out.put_socket_state E v = out.append "Unknown" := by
  refine ⟨?_, ?_, ?_, ?_, ?_, ?_, ?_, ?_, ?_, ?_, ?_, fun v hv => ?_⟩
  case refine_12 =>
    rw [put_socket_state_eq, put_str_eq_append hw]
    exact congrArg out.append (switch_label_of_not_mem _ _ hv)
  all_goals
    rw [put_socket_state_eq, put_str_eq_append hw]
    exact congrArg out.append (switch_label_of_mem _ _ _ hE (by simp))

theorem put_unix_domain_socket_type_eq (out : ostream) (E : pfs.unix_domain_socket.type) (v : Int) :
    out.put_unix_domain_socket_type E v = out.put_str (switch_label
      [(E.stream, "Stream"), (E.datagram, "Datagram"), (E.seqpacket, "SeqPacket")] v) := by
  simp only [ostream.put_unix_domain_socket_type, switch_label, apply_ite (ostream.put_str out)]

theorem put_unix_domain_socket_type_labels (out : ostream) (hw : out.width = 0)
    (E : pfs.unix_domain_socket.type) (hE : E.distinct) :
    out.put_unix_domain_socket_type E E.stream = out.append "Stream" ∧
    out.put_unix_domain_socket_type E E.datagram = out.append "Datagram" ∧
    out.put_unix_domain_socket_type E E.seqpacket = out.append "SeqPacket" ∧
    ∀ v : Int, v ∉ E.values → out.put_unix_domain_socket_type E v = out.append "Unknown" := by
  refine ⟨?_, ?_, ?_, fun v hv => ?_⟩
  case refine_4 =>
    rw [put_unix_domain_socket_type_eq, put_str_eq_append hw]
    exact congrArg out.append (switch_label_of_not_mem _ _ hv)
  all_goals
    rw [put_unix_domain_socket_type_eq, put_str_eq_append hw]
    exact congrArg out.append (switch_label_of_mem _ _ _ hE (by simp))

theorem put_unix_domain_socket_state_eq (out : ostream) (E : pfs.unix_domain_socket.state) (v : Int) :
    out.put_unix_domain_socket_state E v = out.put_str (switch_label
      [(E.free, "Free"), (E.unconnected, "Unconnected"), (E.connecting, "Connecting"),
       (E.connected, "Connected"), (E.disconnecting, "Disconnecting")] v) := by
  simp only [ostream.put_unix_domain_socket_state, switch_label, apply_ite (ostream.put_str out)]

theorem put_unix_domain_socket_state_labels (out : ostream) (hw : out.width = 0)
    (E : pfs.unix_domain_socket.state) (hE : E.distinct) :
    out.put_unix_domain_socket_state E E.free = out.append "Free" ∧
    out.put_unix_domain_socket_state E E.unconnected = out.append "Unconnected" ∧
    out.put_unix_domain_socket_state E E.connecting = out.append "Connecting" ∧
    out.put_unix_domain_socket_state E E.connected = out.append "Connected" ∧
    out.put_unix_domain_socket_state E E.disconnecting = out.append "Disconnecting" ∧
    ∀ v : Int, v ∉ E.values → out.put_unix_domain_socket_state E v = out.append "Unknown" := by
  refine ⟨?_, ?_, ?_, ?_, ?_, fun v hv => ?_⟩
  case refine_6 =>
    rw [put_unix_domain_socket_state_eq, put_str_eq_append hw]
    exact congrArg out.append (switch_label_of_not_mem _ _ hv)
  all_goals
    rw [put_unix_domain_socket_state_eq, put_str_eq_append hw]
    exact congrArg out.append (switch_label_of_mem _ _ _ hE (by simp))

theorem put_task_state_eq (out : ostream) (E : pfs.task_state) (v : Int) :
    out.put_task_state E v = out.put_str (switch_label
      [(E.running, "Running"), (E.sleeping, "Sleeping"), (E.disk_sleep, "Disk-Sleep"),
       (E.stopped, "Stopped"), (E.tracing_stop, "Tracing-Stop"), (E.zombie, "Zombie"),
       (E.dead, "Dead"), (E.wakekill, "Wake-Kill"), (E.waking, "Waking"), (E.parked, "Parked"),
       (E.idle, "Idle")] v) := by
  simp only [ostream.put_task_state, switch_label, apply_ite (ostream.put_str out)]

theorem put_task_state_labels (out : ostream) (hw : out.width = 0)
    (E : pfs.task_state) (hE : E.distinct) :
    out.put_task_state E E.running = out.append "Running" ∧
    out.put_task_state E E.sleeping = out.append "Sleeping" ∧
    out.put_task_state E E.disk_sleep = out.append "Disk-Sleep" ∧
    out.put_task_state E E.stopped = out.append "Stopped" ∧
    out.put_task_state E E.tracing_stop = out.append "Tracing-Stop" ∧
    out.put_task_state E E.zombie = out.append "Zombie" ∧
    out.put_task_state E E.dead = out.append "Dead" ∧
    out.put_task_state E E.wakekill = out.append "Wake-Kill" ∧
    out.put_task_state E E.waking = out.append "Waking" ∧
    out.put_task_state E E.parked = out.append "Parked" ∧
    out.put_task_state E E.idle = out.append "Idle" ∧
    ∀ v : Int, v ∉ E.values → out.put_task_state E v = out.append "Unknown" := by
  refine ⟨?_, ?_, ?_, ?_, ?_, ?_, ?_, ?_, ?_, ?_, ?_, fun v hv => ?_⟩
  case refine_12 =>
    rw [put_task_state_eq, put_str_eq_append hw]
    exact congrArg out.append (switch_label_of_not_mem _ _ hv)
  all_goals
    rw [put_task_state_eq, put_str_eq_append hw]
    exact congrArg out.append (switch_label_of_mem _ _ _ hE (by simp))

theorem put_seccomp_eq (out : ostream) (E : pfs.status.seccomp) (v : Int) :
    out.put_seccomp E v = out.put_str (switch_label
      [(E.disabled, "Disabled"), (E.strict, "Strict"), (E.filter, "Filter")] v) := by
  simp only [ostream.put_seccomp, switch_label, apply_ite (ostream.put_str out)]

theorem put_seccomp_labels (out : ostream) (hw : out.width = 0)
    (E : pfs.status.seccomp) (hE : E.distinct) :
    out.put_seccomp E E.disabled = out.append "Disabled" ∧
    out.put_seccomp E E.strict = out.append "Strict" ∧
    out.put_seccomp E E.filter = out.append "Filter" ∧
    ∀ v : Int, v ∉ E.values → out.put_seccomp E v = out.append "Unknown" := by
  refine ⟨?_, ?_, ?_, fun v hv => ?_⟩
  case refine_4 =>
    rw [put_seccomp_eq, put_str_eq_append hw]
    exact congrArg out.append (switch_label_of_not_mem _ _ hv)
  all_goals
    rw [put_seccomp_eq, put_str_eq_append hw]
    exact congrArg out.append (switch_label_of_mem _ _ _ hE (by simp))

theorem put_module_state_eq (out : ostream) (E : pfs.module.state) (v : Int) :
    out.put_module_state E v = out.put_str (switch_label
      [(E.live, "Live"), (E.loading, "Loading"), (E.unloading, "Unloading")] v) := by
  simp only [ostream.put_module_state, switch_label, apply_ite (ostream.put_str out)]

theorem put_module_state_labels (out : ostream) (hw : out.width = 0)
    (E : pfs.module.state) (hE : E.distinct) :
    out.put_module_state E E.live = out.append "Live" ∧
    out.put_module_state E E.loading = out.append "Loading" ∧
    out.put_module_state E E.unloading = out.append "Unloading" ∧
    ∀ v : Int, v ∉ E.values → out.put_module_state E v = out.append "Unknown" := by
  refine ⟨?_, ?_, ?_, fun v hv => ?_⟩
  case refine_4 =>
    rw [put_module_state_eq, put_str_eq_append hw]
    exact congrArg out.append (switch_label_of_not_mem _ _ hv)
  all_goals
    rw [put_module_state_eq, put_str_eq_append hw]
    exact congrArg out.append (switch_label_of_mem _ _ _ hE (by simp))

/-- C1. For each of the seven enumerations, on a stream with no pending field
width, the inserter of the enumeration appends exactly the documented label for
every named enumerator and exactly "Unknown" for every value of the underlying
integer type that is not the value of a named enumerator, and leaves the rest
of the stream as it is; the inserter is a total function. -/
theorem enum_labels (out : ostream) (hw : out.width = 0)
    (T : pfs.socket.timer) (S : pfs.socket.state) (UT : pfs.unix_domain_socket.type) (US : pfs.unix_domain_socket.state)
    (TS : pfs.task_state) (SC : pfs.status.seccomp) (MS : pfs.module.state)
    (hT : T.distinct) (hS : S.distinct) (hUT : UT.distinct) (hUS : US.distinct) (hTS : TS.distinct) (hSC : SC.distinct) (hMS : MS.distinct) :
    (out.put_socket_timer T T.none = out.append "None" ∧
     out.put_socket_timer T T.retransmit = out.append "Retransmit" ∧
     out.put_socket_timer T T.another = out.append "Another" ∧
     out.put_socket_timer T T.time_wait = out.append "Time-Wait" ∧
     out.put_socket_timer T T.zero_window = out.append "Zero-Window" ∧
     (∀ v : Int, v ∉ T.values → out.put_socket_timer T v = out.append "Unknown")) ∧
    (out.put_socket_state S S.established = out.append "Established" ∧
     out.put_socket_state S S.syn_sent = out.append "Syn-Sent" ∧
     out.put_socket_state S S.syn_recv = out.append "Syn-Recv" ∧
     out.put_socket_state S S.fin_wait1 = out.append "Fin-Wait1" ∧
     out.put_socket_state S S.fin_wait2 = out.append "Fin-Wait2" ∧
     out.put_socket_state S S.time_wait = out.append "Time-Wait" ∧
     out.put_socket_state S S.close = out.append "Close" ∧
     out.put_socket_state S S.close_wait = out.append "Close-Wait" ∧
     out.put_socket_state S S.last_ack = out.append "Last-Ack" ∧
     out.put_socket_state S S.listen = out.append "Listen" ∧
     out.put_socket_state S S.closing = out.append "Closing" ∧
     (∀ v : Int, v ∉ S.values → out.put_socket_state S v = out.append "Unknown")) ∧
    (out.put_unix_domain_socket_type UT UT.stream = out.append "Stream" ∧
     out.put_unix_domain_socket_type UT UT.datagram = out.append "Datagram" ∧
     out.put_unix_domain_socket_type UT UT.seqpacket = out.append "SeqPacket" ∧
     (∀ v : Int, v ∉ UT.values → out.put_unix_domain_socket_type UT v = out.append "Unknown")) ∧
    (out.put_unix_domain_socket_state US US.free = out.append "Free" ∧
     out.put_unix_domain_socket_state US US.unconnected = out.append "Unconnected" ∧
     out.put_unix_domain_socket_state US US.connecting = out.append "Connecting" ∧
     out.put_unix_domain_socket_state US US.connected = out.append "Connected" ∧
     out.put_unix_domain_socket_state US US.disconnecting = out.append "Disconnecting" ∧
     (∀ v : Int, v ∉ US.values → out.put_unix_domain_socket_state US v = out.append "Unknown")) ∧
    (out.put_task_state TS TS.running = out.append "Running" ∧
     out.put_task_state TS TS.sleeping = out.append "Sleeping" ∧
     out.put_task_state TS TS.disk_sleep = out.append "Disk-Sleep" ∧
     out.put_task_state TS TS.stopped = out.append "Stopped" ∧
     out.put_task_state TS TS.tracing_stop = out.append "Tracing-Stop" ∧
     out.put_task_state TS TS.zombie = out.append "Zombie" ∧
     out.put_task_state TS TS.dead = out.append "Dead" ∧
     out.put_task_state TS TS.wakekill = out.append "Wake-Kill" ∧
     out.put_task_state TS TS.waking = out.append "Waking" ∧
     out.put_task_state TS TS.parked = out.append "Parked" ∧
     out.put_task_state TS TS.idle = out.append "Idle" ∧
     (∀ v : Int, v ∉ TS.values → out.put_task_state TS v = out.append "Unknown")) ∧
    (out.put_seccomp SC SC.disabled = out.append "Disabled" ∧
     out.put_seccomp SC SC.strict = out.append "Strict" ∧
     out.put_seccomp SC SC.filter = out.append "Filter" ∧
     (∀ v : Int, v ∉ SC.values → out.put_seccomp SC v = out.append "Unknown")) ∧
    (out.put_module_state MS MS.live = out.append "Live" ∧
     out.put_module_state MS MS.loading = out.append "Loading" ∧
     out.put_module_state MS MS.unloading = out.append "Unloading" ∧
     (∀ v : Int, v ∉ MS.values → out.put_module_state MS v = out.append "Unknown")) :=
  ⟨put_socket_timer_labels out hw T hT,
   put_socket_state_labels out hw S hS,
   put_unix_domain_socket_type_labels out hw UT hUT,
   put_unix_domain_socket_state_labels out hw US hUS,
   put_task_state_labels out hw TS hTS,
   put_seccomp_labels out hw SC hSC,
   put_module_state_labels out hw MS hMS⟩


/-- The statement C1 at the sample declarations, on a fresh string stream. -/
theorem enum_labels_witness :
    (ostringstream.put_socket_timer sample_socket_timer 3).str = "Time-Wait" ∧
    (ostringstream.put_task_state sample_task_state 7).str = "Wake-Kill" ∧
    (ostringstream.put_unix_domain_socket_type sample_unix_domain_socket_type 2).str
      = "SeqPacket" ∧
    (ostringstream.put_module_state sample_module_state 99).str = "Unknown" := by
  have h := enum_labels ostringstream rfl sample_socket_timer sample_socket_state
    sample_unix_domain_socket_type sample_unix_domain_socket_state sample_task_state
    sample_seccomp sample_module_state (by decide) (by decide) (by decide) (by decide)
    (by decide) (by decide) (by decide)
  obtain ⟨hT, -, hUT, -, hTS, -, hMS⟩ := h
  refine ⟨?_, ?_, ?_, ?_⟩
  · exact congrArg ostream.str hT.2.2.2.1
  · exact congrArg ostream.str hTS.2.2.2.2.2.2.2.1
  · exact congrArg ostream.str hUT.2.2.1
  · exact congrArg ostream.str (hMS.2.2.2 99 (by decide))

/-! ## The sequence joiner -/

theorem pop_back_append_singleton (s : String) (c : Char) :
    pop_back (s ++ String.singleton c) = s := by
  apply String.ext
  simp [pop_back, String.singleton]

theorem join_fold {α : Type} (put : ostream → α → ostream) (text : α → String)
    (hput : ∀ (s : String) (v : α),
      put ⟨s, basefield.dec, false, ' ', 0⟩ v = ⟨s ++ text v, basefield.dec, false, ' ', 0⟩)
    (xs : List α) (acc : String) :
    pop_back (xs.foldl (fun out v => (put out v).put_char ',')
      ⟨acc ++ String.singleton ',', basefield.dec, false, ' ', 0⟩).str
      = String.intercalate.go acc "," (xs.map text) := by
  induction xs generalizing acc with
  | nil => simp [ostream.str, pop_back_append_singleton, String.intercalate.go]
  | cons x rest ih =>
    simp only [List.foldl_cons, List.map_cons, String.intercalate.go, hput, ostream.put_char,
      ostream.write, padded_zero]
    exact ih _

/-- C2. For every sequence of elements whose inserter, on a stream in the
default state, appends the textual form of the element and leaves the state as
it is, `join` gives the textual forms in their order with one comma between
adjacent ones and none before or after: `String.intercalate ","` of the
textual forms.  The empty sequence gives the empty string, one element gives
the element alone, and repeated elements are kept. -/
theorem join_eq_intercalate {α : Type} (put : ostream → α → ostream) (text : α → String)
    (hput : ∀ (s : String) (v : α),
      put ⟨s, basefield.dec, false, ' ', 0⟩ v = ⟨s ++ text v, basefield.dec, false, ' ', 0⟩)
    (xs : List α) :
    join put xs = String.intercalate "," (xs.map text) ∧
    join ostream.put_str [] = "" ∧
    join ostream.put_str ["a"] = "a" ∧
    join ostream.put_str ["a", "b", "c"] = "a,b,c" ∧
    join ostream.put_str ["a", "b", "a", "a"] = "a,b,a,a" := by
  refine ⟨?_, by decide, by decide, by decide, by decide⟩
  cases xs with
  | nil => rfl
  | cons x rest =>
    have h := join_fold put text hput rest (text x)
    simp only [join, List.isEmpty_cons, Bool.false_eq_true, if_false, List.foldl_cons,
      ostringstream, hput, ostream.put_char, ostream.write, padded_zero, String.empty_append,
      List.map_cons, String.intercalate]
    exact h

/-- The statement C2 for a sequence of unsigned integers with a repeated
element, whose textual forms are their decimal numerals. -/
theorem join_eq_intercalate_witness :
    join ostream.put_unsigned [1000, 4, 4] = "1000,4,4" :=
  (join_eq_intercalate ostream.put_unsigned (numeral 10)
    (by intro s v; simp [ostream.put_unsigned, ostream.write, padded_zero, basefield.radix])
    [1000, 4, 4]).1.trans (by decide)

/-! ## The printable-filtered buffer renderer -/

theorem hexlify_fold (buffer : List Nat) (out : ostream) (hw : out.width = 0) :
    (buffer.foldl
      (fun out v =>
        let c := if is_printable v then Char.ofNat v else '.'
        out.put_char c)
      out).buf
      = out.buf ++ String.mk (buffer.map
          (fun v => if is_printable v then Char.ofNat v else '.')) := by
  induction buffer generalizing out with
  | nil =>
    apply String.ext
    simp
  | cons v rest ih =>
    simp only [List.foldl_cons, List.map_cons]
    rw [ih _ (by simp [ostream.put_char, ostream.write])]
    apply String.ext
    simp [ostream.put_char, ostream.write, hw, padded_zero, String.singleton]

theorem hexlify_data (buffer : List Nat) :
    (hexlify buffer).data
      = buffer.map (fun v => if is_printable v then Char.ofNat v else '.') := by
  simp only [hexlify, ostream.str]
  rw [hexlify_fold _ _ (by simp [ostream.hex, ostringstream])]
  simp [ostream.hex, ostringstream]

theorem is_printable_iff (byte : Nat) :
    is_printable byte = true ↔ 0x21 ≤ byte ∧ byte ≤ 0x7E := by
  simp [is_printable]

/-- C3. For every byte buffer, `hexlify` gives a string of the length of the
buffer whose character at every index is the character of the byte at that
index when the byte lies in the range from 0x21 to 0x7E, and a dot otherwise;
the buffer 0x41, 0x00, 0x7e, 0x7f, 0x21 gives "A.~.!". -/
theorem hexlify_spec (b : List Nat) :
    (hexlify b).length = b.length ∧
    (∀ (i : Nat) (hi : i < b.length),
      (hexlify b).data[i]? =
        some (if 0x21 ≤ b[i] ∧ b[i] ≤ 0x7E then Char.ofNat b[i] else '.')) ∧
    hexlify [0x41, 0x00, 0x7e, 0x7f, 0x21] = "A.~.!" := by
  refine ⟨?_, ?_, by decide⟩
  · simp [String.length, hexlify_data]
  · intro i hi
    rw [hexlify_data, List.getElem?_map, List.getElem?_eq_getElem hi]
    simp only [Option.map_some', Option.some.injEq]
    by_cases h : is_printable b[i] = true
    · rw [if_pos h, if_pos ((is_printable_iff _).1 h)]
    · rw [if_neg h, if_neg (fun h2 => h ((is_printable_iff _).2 h2))]

/-- The statement C3 at the buffer 0x41, 0x00, 0x7e and its index 1, which
holds a byte outside the printable range. -/
theorem hexlify_spec_witness :
    (hexlify [0x41, 0x00, 0x7e]).length = 3 ∧ (hexlify [0x41, 0x00, 0x7e]).data[1]? = some '.' :=
  ⟨(hexlify_spec [0x41, 0x00, 0x7e]).1, (hexlify_spec [0x41, 0x00, 0x7e]).2.1 1 (by decide)⟩

theorem printable_char_code (v : Nat) :
    is_printable (if is_printable v then Char.ofNat v else '.').toNat = true := by
  by_cases h : is_printable v = true
  · rw [if_pos h]
    obtain ⟨h1, h2⟩ := (is_printable_iff v).1 h
    interval_cases v <;> decide
  · rw [if_neg h]
    decide

/-- C4. `hexlify` is idempotent: for every byte buffer, every byte of the
output (the code of each of its characters) lies in the range from 0x21 to
0x7E, and `hexlify` applied to the bytes of the output gives the output
again. -/
theorem hexlify_idempotent (b : List Nat) :
    (∀ c ∈ (hexlify b).data, 0x21 ≤ c.toNat ∧ c.toNat ≤ 0x7E) ∧
    hexlify ((hexlify b).data.map Char.toNat) = hexlify b := by
  constructor
  · intro c hc
    rw [hexlify_data, List.mem_map] at hc
    obtain ⟨v, -, rfl⟩ := hc
    exact (is_printable_iff _).1 (printable_char_code v)
  · apply String.ext
    rw [hexlify_data, hexlify_data, List.map_map, List.map_map]
    apply List.map_congr_left
    intro v _
    simp only [Function.comp_apply]
    rw [if_pos (printable_char_code v), Char.ofNat_toNat]

/-- The statement C4 at the buffer 0x41, 0x00, 0x7f, whose output is "A..". -/
theorem hexlify_idempotent_witness :
    (0x21 ≤ '.'.toNat ∧ '.'.toNat ≤ 0x7E) ∧
    hexlify ((hexlify [0x41, 0x00, 0x7f]).data.map Char.toNat) = hexlify [0x41, 0x00, 0x7f] :=
  ⟨(hexlify_idempotent [0x41, 0x00, 0x7f]).1 '.' (by decide),
   (hexlify_idempotent [0x41, 0x00, 0x7f]).2⟩

/-! ## The bitmask renderers -/

theorem toDigitsCore_eq_numeral_aux (b : Nat) (hb : 0 < b) (fuel n : Nat) (ds : List Char) :
    Nat.toDigitsCore b fuel n ds = numeral_aux b fuel n ++ ds := by
  induction fuel generalizing n ds with
  | zero => simp [Nat.toDigitsCore, numeral_aux]
  | succ fuel ih =>
    simp only [Nat.toDigitsCore, numeral_aux]
    by_cases h : n < b
    · simp [h, Nat.div_eq_of_lt h, Nat.mod_eq_of_lt h]
    · have hq : n / b ≠ 0 := by
        intro h0
        rcases (Nat.div_eq_zero_iff hb).1 h0 with h1
        exact h h1
      simp [h, hq, ih]

theorem numeral_data (b : Nat) (hb : 0 < b) (n : Nat) :
    (numeral b n).data = Nat.toDigits b n := by
  simp [numeral, Nat.toDigits, toDigitsCore_eq_numeral_aux b hb]

theorem numeral_aux_length (b : Nat) (hb : 1 < b) (fuel n : Nat) (hf : n < fuel) :
    (numeral_aux b fuel n).length = Nat.log b n + 1 := by
  induction fuel generalizing n with
  | zero => omega
  | succ fuel ih =>
    simp only [numeral_aux]
    by_cases h : n < b
    · simp [h, Nat.log_of_lt h]
    · have hle : b ≤ n := Nat.le_of_not_lt h
      have hdiv : n / b < n := Nat.div_lt_self (by omega) hb
      rw [if_neg h, List.length_append, ih (n / b) (by omega),
        Nat.log_of_one_lt_of_le hb hle]
      simp

theorem numeral_length (b : Nat) (hb : 1 < b) (n : Nat) :
    (numeral b n).length = Nat.log b n + 1 := by
  simp [numeral, String.length, numeral_aux_length b hb (n + 1) n (Nat.lt_succ_self n)]

theorem digitChar_mem_hex (d : Nat) (hd : d < 16) :
    Nat.digitChar d ∈ "0123456789abcdef".data := by
  interval_cases d <;> decide

theorem numeral_aux_mem_hex (b : Nat) (hb : 0 < b) (hb16 : b ≤ 16) (fuel n : Nat) :
    ∀ c ∈ numeral_aux b fuel n, c ∈ "0123456789abcdef".data := by
  induction fuel generalizing n with
  | zero => simp [numeral_aux]
  | succ fuel ih =>
    intro c hc
    simp only [numeral_aux] at hc
    by_cases h : n < b
    · rw [if_pos h, List.mem_singleton] at hc
      subst hc
      exact digitChar_mem_hex n (by omega)
    · rw [if_neg h, List.mem_append, List.mem_singleton] at hc
      rcases hc with hc | hc
      · exact ih _ c hc
      · subst hc
        exact digitChar_mem_hex _ (lt_of_lt_of_le (Nat.mod_lt n hb) hb16)

theorem to_octal_mask_eq (mask : Nat) :
    to_octal_mask mask = padded 4 '0' (numeral 8 mask) := by
  simp [to_octal_mask, ostream.str, ostream.put_unsigned, ostream.write, ostream.setw,
    ostream.setfill, ostream.oct, ostringstream, basefield.radix]

theorem to_hex_mask_eq (mask : Nat) :
    to_hex_mask mask = padded 16 '0' (numeral 16 mask) := by
  simp [to_hex_mask, ostream.str, ostream.put_unsigned, ostream.write, ostream.setw,
    ostream.setfill, ostream.hex, ostringstream, basefield.radix]

theorem padded_length (w : Nat) (c : Char) (s : String) :
    (padded w c s).length = max w s.length := by
  simp only [padded, String.length, String.data_append, List.length_append,
    List.length_replicate]
  omega

/-- C5. For every mask, `to_octal_mask` gives the base-8 numeral of the mask
(the digits `Nat.toDigits 8` of the standard library) padded on the left with
the digit 0 up to width 4, never truncated: its length is the maximum of 4 and
the number of octal digits of the mask.  The masks 0, 8 and 0o177777 give
"0000", "0010" and "177777". -/
theorem to_octal_mask_spec (mask : Nat) :
    to_octal_mask mask
      = String.mk (List.replicate (4 - (Nat.toDigits 8 mask).length) '0'
          ++ Nat.toDigits 8 mask) ∧
    (Nat.toDigits 8 mask).length = Nat.log 8 mask + 1 ∧
    (to_octal_mask mask).length = max 4 (Nat.log 8 mask + 1) ∧
    to_octal_mask 0 = "0000" ∧
    to_octal_mask 8 = "0010" ∧
    to_octal_mask 0o177777 = "177777" := by
  have hd := numeral_data 8 (by decide) mask
  have hl := numeral_length 8 (by decide) mask
  refine ⟨?_, ?_, ?_, by decide, by decide, by decide⟩
  · rw [to_octal_mask_eq]
    apply String.ext
    simp [padded, String.length, hd]
  · rw [← hd]
    exact hl
  · rw [to_octal_mask_eq, padded_length, hl]

/-- C6. For every mask, `to_hex_mask` gives the base-16 numeral of the mask
(the digits `Nat.toDigits 16` of the standard library), written with the
lowercase digits 0-9 and a-f only, padded on the left with the digit 0 up to
width 16, never truncated: its length is the maximum of 16 and the number of
hexadecimal digits of the mask.  The masks 0 and 0xDEADBEEF give
"0000000000000000" and "00000000deadbeef". -/
theorem to_hex_mask_spec (mask : Nat) :
    to_hex_mask mask
      = String.mk (List.replicate (16 - (Nat.toDigits 16 mask).length) '0'
          ++ Nat.toDigits 16 mask) ∧
    (∀ c ∈ (to_hex_mask mask).data, c ∈ "0123456789abcdef".data) ∧
    (Nat.toDigits 16 mask).length = Nat.log 16 mask + 1 ∧
    (to_hex_mask mask).length = max 16 (Nat.log 16 mask + 1) ∧
    to_hex_mask 0 = "0000000000000000" ∧
    to_hex_mask 0xDEADBEEF = "00000000deadbeef" := by
  have hd := numeral_data 16 (by decide) mask
  have hl := numeral_length 16 (by decide) mask
  refine ⟨?_, ?_, ?_, ?_, by decide, by decide⟩
  · rw [to_hex_mask_eq]
    apply String.ext
    simp [padded, String.length, hd]
  · intro c hc
    rw [to_hex_mask_eq] at hc
    simp only [padded, String.data_append, List.mem_append, List.mem_replicate] at hc
    rcases hc with ⟨-, rfl⟩ | hc
    · decide
    · exact numeral_aux_mem_hex 16 (by decide) (by decide) _ _ c hc
  · rw [← hd]
    exact hl
  · rw [to_hex_mask_eq, padded_length, hl]

/-- The statement C6 at the mask 0xDEADBEEF and the character `d` of its
output. -/
theorem to_hex_mask_spec_witness :
    'd' ∈ (to_hex_mask 0xDEADBEEF).data ∧ 'd' ∈ "0123456789abcdef".data :=
  ⟨by decide, (to_hex_mask_spec 0xDEADBEEF).2.1 'd' (by decide)⟩

/-! ## The entity inserters -/

theorem infix_append_right {seg a : String} (h : seg.data <:+: a.data) (b : String) :
    seg.data <:+: (a ++ b).data := by
  rw [String.data_append]
  exact h.trans (List.prefix_append _ _).isInfix

theorem segment_inside (a label value : String) :
    (label ++ value ++ "]").data <:+: (a ++ label ++ value ++ "] ").data :=
  ⟨a.data, " ".data, by simp [String.data_append, List.append_assoc]⟩

theorem put_socket_state_str (S : pfs.socket.state) (v : Int) :
    (ostringstream.put_socket_state S v).str = switch_label
      [(S.established, "Established"), (S.syn_sent, "Syn-Sent"), (S.syn_recv, "Syn-Recv"),
       (S.fin_wait1, "Fin-Wait1"), (S.fin_wait2, "Fin-Wait2"), (S.time_wait, "Time-Wait"),
       (S.close, "Close"), (S.close_wait, "Close-Wait"), (S.last_ack, "Last-Ack"),
       (S.listen, "Listen"), (S.closing, "Closing")] v := by
  simp only [put_socket_state_eq, ostream.put_str, ostream.write, padded_zero, ostringstream,
    ostream.str, String.empty_append]

theorem put_socket_state_inside (T : pfs.socket.timer) (S : pfs.socket.state)
    (socket : pfs.socket) :
    ("state[" ++ (ostringstream.put_socket_state S socket.current_state).str ++ "]").data
      <:+: (ostringstream.put_socket T S socket).str.data := by
  rw [put_socket_state_str]
  simp only [ostream.put_socket, ostream.put_str, ostream.put_unsigned, ostream.put_signed,
    ostream.write, ostream.hex, ostream.dec, put_socket_state_eq, put_socket_timer_eq,
    padded_zero, ostringstream, basefield.radix, ostream.str, String.empty_append]
  iterate 30 apply infix_append_right
  exact segment_inside _ _ _

/-- C7. For every socket, the output of the socket inserter on a fresh stream
contains the segment "state[L]" where L is the label that the state inserter
writes for `current_state`: a socket whose `current_state` has the raw value 1,
the value of `established`, gives "state[Established]", and a socket whose
`current_state` is the value of no enumerator gives "state[Unknown]". -/
theorem socket_state_segment (T : pfs.socket.timer) (S : pfs.socket.state)
    (socket : pfs.socket) :
    ("state[" ++ (ostringstream.put_socket_state S socket.current_state).str ++ "]").data
      <:+: (ostringstream.put_socket T S socket).str.data ∧
    (S.established = 1 → socket.current_state = 1 →
      "state[Established]".data <:+: (ostringstream.put_socket T S socket).str.data) ∧
    (socket.current_state ∉ S.values →
      "state[Unknown]".data <:+: (ostringstream.put_socket T S socket).str.data) := by
  have h := put_socket_state_inside T S socket
  refine ⟨h, fun h1 h2 => ?_, fun hv => ?_⟩
  · rw [put_socket_state_str] at h
    have hl : switch_label
        [(S.established, "Established"), (S.syn_sent, "Syn-Sent"), (S.syn_recv, "Syn-Recv"),
         (S.fin_wait1, "Fin-Wait1"), (S.fin_wait2, "Fin-Wait2"), (S.time_wait, "Time-Wait"),
         (S.close, "Close"), (S.close_wait, "Close-Wait"), (S.last_ack, "Last-Ack"),
         (S.listen, "Listen"), (S.closing, "Closing")] socket.current_state = "Established" := by
      simp [switch_label, h1, h2]
    rw [hl] at h
    exact h
  · rw [put_socket_state_str, switch_label_of_not_mem _ _ hv] at h
    exact h

/-- The statement C7 at two sample sockets, in the state with raw value 1 and
in a state that is the value of no enumerator. -/
theorem socket_state_segment_witness :
    "state[Established]".data <:+:
      (ostringstream.put_socket sample_socket_timer sample_socket_state
        sample_socket).str.data ∧
    "state[Unknown]".data <:+:
      (ostringstream.put_socket sample_socket_timer sample_socket_state
        sample_socket_unknown).str.data :=
  ⟨(socket_state_segment sample_socket_timer sample_socket_state sample_socket).2.1 rfl rfl,
   (socket_state_segment sample_socket_timer sample_socket_state sample_socket_unknown).2.2
     (by decide)⟩

/-- C8. For every load average, the inserter writes on a fresh stream exactly
four segments in the order load, runnable_tasks, total_tasks,
last_created_task: the three averages in the order 1min, 5min, 15min, each in
the default floating-point format and separated by a comma and a blank, inside
"load[...]", then the three integer fields in decimal.  For the averages 0.5,
0.3, 0.1 and the integers 3, 120, 4821 the segments carry these literal
values. -/
theorem load_average_segments (load : pfs.load_average) :
    (ostringstream.put_load_average load).str
      = "load[" ++ load.last_1min.text ++ ", " ++ load.last_5min.text ++ ", "
          ++ load.last_15min.text ++ "] "
        ++ "runnable_tasks[" ++ signed_decimal load.runnable_tasks ++ "] "
        ++ "total_tasks[" ++ signed_decimal load.total_tasks ++ "] "
        ++ "last_created_task[" ++ signed_decimal load.last_created_task ++ "] " ∧
    (ostringstream.put_load_average sample_load_average).str
      = "load[0.5, 0.3, 0.1] runnable_tasks[3] total_tasks[120] last_created_task[4821] " := by
  refine ⟨?_, by decide⟩
  simp only [ostream.put_load_average, ostream.put_str, ostream.put_double,
    ostream.put_signed, ostream.write, padded_zero, ostringstream, ostream.str,
    String.empty_append]

theorem adjacent_inside (a label value next : String) :
    (label ++ value ++ "]" ++ next).data <:+: (a ++ label ++ value ++ "]" ++ next).data :=
  ⟨a.data, [], by simp [String.data_append, List.append_assoc]⟩

set_option maxRecDepth 100000 in
theorem put_stat_arg_end_inside (TS : pfs.task_state) (st : pfs.stat) :
    ("arg_end[" ++ numeral 10 st.arg_end ++ "]" ++ "env_start[").data
      <:+: (ostringstream.put_stat TS st).str.data := by
  simp only [ostream.put_stat, ostream.put_str, ostream.put_unsigned, ostream.put_signed,
    ostream.write, put_task_state_eq, padded_zero, ostringstream, basefield.radix, ostream.str,
    String.empty_append]
  iterate 8 apply infix_append_right
  exact adjacent_inside _ _ _ _

set_option maxRecDepth 100000 in
theorem put_stat_env_end_inside (TS : pfs.task_state) (st : pfs.stat) :
    ("env_end[" ++ numeral 10 st.env_end ++ "]" ++ "exit_code[").data
      <:+: (ostringstream.put_stat TS st).str.data := by
  simp only [ostream.put_stat, ostream.put_str, ostream.put_unsigned, ostream.put_signed,
    ostream.write, put_task_state_eq, padded_zero, ostringstream, basefield.radix, ostream.str,
    String.empty_append]
  iterate 2 apply infix_append_right
  exact adjacent_inside _ _ _ _

theorem put_mem_region_perm_inside (region : pfs.mem_region) :
    ("perm[" ++ (ostringstream.put_mem_perm region.perm).str ++ "]" ++ "offset[0x").data
      <:+: (ostringstream.put_mem_region region).str.data :=
  ⟨("addr[0x" ++ numeral 16 region.start_address ++ "]-[0x"
      ++ numeral 16 region.end_address ++ "] ").data,
   (numeral 16 region.offset ++ "] " ++ "device[" ++ numeral 16 region.device ++ "] "
      ++ "inode[" ++ numeral 10 region.inode ++ "] "
      ++ "pathname[" ++ region.pathname ++ "]").data,
   by simp [ostream.put_mem_region, ostream.put_mem_perm, ostream.put_str, ostream.put_char,
        ostream.put_unsigned, ostream.write, ostream.hex, ostream.dec, padded_zero,
        ostringstream, basefield.radix, ostream.str, String.data_append, List.append_assoc]⟩

set_option maxRecDepth 100000 in
/-- C9. The inserters of `pfs::stat` and `pfs::mem_region` do not separate all
their segments: on a fresh stream, for every `stat` the segment `arg_end[...]`
is followed at once by `env_start[` and the segment `env_end[...]` at once by
`exit_code[`, and for every `mem_region` the segment `perm[...]` is followed
at once by `offset[0x`; the outputs for a sample `stat` and a sample
`mem_region` are evaluated. -/
theorem stat_mem_region_segments_not_separated :
    (∀ (TS : pfs.task_state) (st : pfs.stat),
      ("arg_end[" ++ numeral 10 st.arg_end ++ "]" ++ "env_start[").data
        <:+: (ostringstream.put_stat TS st).str.data ∧
      ("env_end[" ++ numeral 10 st.env_end ++ "]" ++ "exit_code[").data
        <:+: (ostringstream.put_stat TS st).str.data) ∧
    (∀ region : pfs.mem_region,
      ("perm[" ++ (ostringstream.put_mem_perm region.perm).str ++ "]" ++ "offset[0x").data
        <:+: (ostringstream.put_mem_region region).str.data) ∧
    (ostringstream.put_stat sample_task_state sample_stat).str
      = "pid[1] comm[(init)] state[Sleeping] ppid[0] pgrp[1] session[1] tty_nr[0] "
        ++ "tgpid[-1] flags[4194560] minflt[10] cminflt[11] majflt[12] cmajflt[13] "
        ++ "utime[14] stime[15] cutime[16] cstime[17] priority[20] nice[0] "
        ++ "num_threads[1] itrealvalue[0] starttime[22] vsize[23] rss[24] rsslim[25] "
        ++ "startcode[26] endcode[27] startstack[28] kstkesp[29] kstkeip[30] signal[31] "
        ++ "blocked[32] sigignore[33] sigcatch[34] wchan[35] nswap[36] cnswap[37] "
        ++ "exit_signal[17] processor[39] rt_priority[40] policy[41] "
        ++ "delayacct_blkio_ticks[42] guest_time[43] cguest_time[44] start_data[45] "
        ++ "end_data[46] start_brk[47] arg_start[48] "
        ++ "arg_end[49]env_start[50] env_end[51]exit_code[0]" ∧
    (ostringstream.put_mem_region sample_mem_region).str
      = "addr[0x400000]-[0x452000] perm[r-xp]offset[0x0] device[801] inode[1234] "
        ++ "pathname[/bin/cat]" :=
  ⟨fun TS st => ⟨put_stat_arg_end_inside TS st, put_stat_env_end_inside TS st⟩,
   put_mem_region_perm_inside, by decide, by decide⟩

set_option maxRecDepth 100000 in
/-- C10 does not hold as stated: the output of the socket inserter for the
sample socket ends with a blank after the closing bracket of its last segment,
so it does not end with the bracket. -/
theorem socket_output_ends_with_blank :
    (ostringstream.put_socket sample_socket_timer sample_socket_state sample_socket).str
      = "slot[0] local[127.0.0.1:8080] remote[10.0.0.2:443] state[Established] "
        ++ "tx_queue[0] rx_queue[0] timer[None] timer_expire[0] retransmits[0] uid[1000] "
        ++ "timeouts[0] inode[12345] ref_count[1] skbuff[0xff] " ∧
    ¬ ("]".data <:+
      (ostringstream.put_socket sample_socket_timer sample_socket_state
        sample_socket).str.data) := by
  decide

set_option maxRecDepth 100000 in
/-- C10, amended. On a fresh stream, for every entity value: the outputs of
the inserters of `stat`, `mem_stats` and `mem_region` end with the closing
bracket of their last segment (`exit_code`, `data`, `pathname`); the outputs
of the inserters of `socket`, `unix_domain_socket`, `status`, `mount`,
`module`, `load_average` and `zone` end with the closing bracket of their last
segment (`skbuff`, `path`, `nonvoluntary_ctxt_switches`, `super_options`,
`unsigned`, `last_created_task`, `chunks`) followed by exactly one blank. -/
theorem entity_output_endings :
    (∀ (TS : pfs.task_state) (st : pfs.stat), ∃ body : String,
      (ostringstream.put_stat TS st).str
        = body ++ "exit_code[" ++ signed_decimal st.exit_code ++ "]") ∧
    (∀ mem : pfs.mem_stats, ∃ body : String,
      (ostringstream.put_mem_stats mem).str = body ++ "data[" ++ numeral 10 mem.data ++ "]") ∧
    (∀ region : pfs.mem_region, ∃ body : String,
      (ostringstream.put_mem_region region).str
        = body ++ "pathname[" ++ region.pathname ++ "]") ∧
    (∀ (T : pfs.socket.timer) (S : pfs.socket.state) (socket : pfs.socket), ∃ body : String,
      (ostringstream.put_socket T S socket).str
        = body ++ "skbuff[0x" ++ numeral 16 socket.skbuff ++ "] ") ∧
    (∀ (T : pfs.unix_domain_socket.type) (S : pfs.unix_domain_socket.state)
      (uds : pfs.unix_domain_socket), ∃ body : String,
      (ostringstream.put_unix_domain_socket T S uds).str
        = body ++ "path[" ++ uds.path ++ "] ") ∧
    (∀ (TS : pfs.task_state) (SC : pfs.status.seccomp) (st : pfs.status), ∃ body : String,
      (ostringstream.put_status TS SC st).str
        = body ++ "nonvoluntary_ctxt_switches["
            ++ numeral 10 st.nonvoluntary_ctxt_switches ++ "] ") ∧
    (∀ mount : pfs.mount, ∃ body : String,
      (ostringstream.put_mount mount).str
        = body ++ "super_options[" ++ join ostream.put_str mount.super_options ++ "] ") ∧
    (∀ (S : pfs.module.state) (module : pfs.module), ∃ body : String,
      (ostringstream.put_module S module).str
        = body ++ "unsigned[" ++ (if module.is_unsigned then "true" else "false") ++ "] ") ∧
    (∀ load : pfs.load_average, ∃ body : String,
      (ostringstream.put_load_average load).str
        = body ++ "last_created_task[" ++ signed_decimal load.last_created_task ++ "] ") ∧
    (∀ zone : pfs.zone, ∃ body : String,
      (ostringstream.put_zone zone).str
        = body ++ "chunks[" ++ join ostream.put_unsigned zone.chunks ++ "] ") := by
  refine ⟨?_, ?_, ?_, ?_, ?_, ?_, ?_, ?_, ?_, ?_⟩
  all_goals
    intros
    simp only [ostream.put_stat, ostream.put_mem_stats, ostream.put_mem_region,
      ostream.put_socket, ostream.put_unix_domain_socket, ostream.put_status,
      ostream.put_mount, ostream.put_module, ostream.put_load_average, ostream.put_zone,
      ostream.put_uid_set, ostream.put_mem_perm, ostream.put_str, ostream.put_char,
      ostream.put_unsigned, ostream.put_signed, ostream.put_bool, ostream.put_double,
      ostream.write, ostream.hex, ostream.dec, ostream.set_boolalpha, ostream.noboolalpha,
      put_socket_timer_eq, put_socket_state_eq, put_unix_domain_socket_type_eq,
      put_unix_domain_socket_state_eq, put_task_state_eq, put_seccomp_eq, put_module_state_eq,
      padded_zero, ostringstream, basefield.radix, ostream.str, String.empty_append,
      if_true, if_false, Bool.false_eq_true]
    exact ⟨_, rfl⟩

/-! ## The formatting state after an inserter -/

set_option maxRecDepth 100000 in
theorem inserters_keep_default_state :
    (∀ (s : String) (T : pfs.socket.timer) (S : pfs.socket.state) (socket : pfs.socket),
      ∃ t, (default_stream s).put_socket T S socket = default_stream t) ∧
    (∀ (s : String) (T : pfs.unix_domain_socket.type) (S : pfs.unix_domain_socket.state)
      (uds : pfs.unix_domain_socket),
      ∃ t, (default_stream s).put_unix_domain_socket T S uds = default_stream t) ∧
    (∀ (s : String) (TS : pfs.task_state) (SC : pfs.status.seccomp) (st : pfs.status),
      ∃ t, (default_stream s).put_status TS SC st = default_stream t) ∧
    (∀ (s : String) (TS : pfs.task_state) (st : pfs.stat),
      ∃ t, (default_stream s).put_stat TS st = default_stream t) ∧
    (∀ (s : String) (mem : pfs.mem_stats),
      ∃ t, (default_stream s).put_mem_stats mem = default_stream t) ∧
    (∀ (s : String) (region : pfs.mem_region),
      ∃ t, (default_stream s).put_mem_region region = default_stream t) ∧
    (∀ (s : String) (mount : pfs.mount),
      ∃ t, (default_stream s).put_mount mount = default_stream t) ∧
    (∀ (s : String) (load : pfs.load_average),
      ∃ t, (default_stream s).put_load_average load = default_stream t) ∧
    (∀ (s : String) (zone : pfs.zone),
      ∃ t, (default_stream s).put_zone zone = default_stream t) := by
  refine ⟨?_, ?_, ?_, ?_, ?_, ?_, ?_, ?_, ?_⟩
  all_goals
    intros
    simp only [default_stream, ostream.put_stat, ostream.put_mem_stats, ostream.put_mem_region,
      ostream.put_socket, ostream.put_unix_domain_socket, ostream.put_status,
      ostream.put_mount, ostream.put_load_average, ostream.put_zone,
      ostream.put_uid_set, ostream.put_mem_perm, ostream.put_str, ostream.put_char,
      ostream.put_unsigned, ostream.put_signed, ostream.put_bool, ostream.put_double,
      ostream.write, ostream.hex, ostream.dec, ostream.set_boolalpha, ostream.noboolalpha,
      put_socket_timer_eq, put_socket_state_eq, put_unix_domain_socket_type_eq,
      put_unix_domain_socket_state_eq, put_task_state_eq, put_seccomp_eq,
      padded_zero, basefield.radix, if_true, if_false, Bool.false_eq_true]
    exact ⟨_, rfl⟩

theorem put_module_state_after (s : String) (S : pfs.module.state) (module : pfs.module) :
    ∃ t, (default_stream s).put_module S module = ⟨t, basefield.dec, true, ' ', 0⟩ := by
  simp only [default_stream, ostream.put_module, ostream.put_str, ostream.put_unsigned,
    ostream.put_bool, ostream.write, ostream.set_boolalpha, put_module_state_eq,
    padded_zero, basefield.radix, if_true]
  exact ⟨_, rfl⟩

/-- C11. The inserter of `pfs::module` does not leave the stream as it found
it: for every module, a stream in the default state before the call has
`boolalpha` set after it (the base, the fill character and the width are the
default ones), so a `bool` inserted next is written as a word, where a fresh
stream writes it as 1.  The inserters of the other nine entities leave a stream
in the default state in the default state.  Evaluated at the sample module. -/
theorem module_inserter_leaves_boolalpha_set :
    (∀ (s : String) (S : pfs.module.state) (module : pfs.module),
      ∃ t, (default_stream s).put_module S module = ⟨t, basefield.dec, true, ' ', 0⟩) ∧
    (ostringstream.put_module sample_module_state sample_module).boolalpha = true ∧
    (ostringstream.put_bool true).str = "1" ∧
    ((ostringstream.put_module sample_module_state sample_module).put_bool true).str
      = "name[ext4] size[737280] instances[1] dependencies[mbcache,jbd2] state[Live] "
        ++ "offset[255] out_of_tree[false] unsigned[true] true" ∧
    ((∀ (s : String) (T : pfs.socket.timer) (S : pfs.socket.state) (socket : pfs.socket),
      ∃ t, (default_stream s).put_socket T S socket = default_stream t) ∧
    (∀ (s : String) (T : pfs.unix_domain_socket.type) (S : pfs.unix_domain_socket.state)
      (uds : pfs.unix_domain_socket),
      ∃ t, (default_stream s).put_unix_domain_socket T S uds = default_stream t) ∧
    (∀ (s : String) (TS : pfs.task_state) (SC : pfs.status.seccomp) (st : pfs.status),
      ∃ t, (default_stream s).put_status TS SC st = default_stream t) ∧
    (∀ (s : String) (TS : pfs.task_state) (st : pfs.stat),
      ∃ t, (default_stream s).put_stat TS st = default_stream t) ∧
    (∀ (s : String) (mem : pfs.mem_stats),
      ∃ t, (default_stream s).put_mem_stats mem = default_stream t) ∧
    (∀ (s : String) (region : pfs.mem_region),
      ∃ t, (default_stream s).put_mem_region region = default_stream t) ∧
    (∀ (s : String) (mount : pfs.mount),
      ∃ t, (default_stream s).put_mount mount = default_stream t) ∧
    (∀ (s : String) (load : pfs.load_average),
      ∃ t, (default_stream s).put_load_average load = default_stream t) ∧
    (∀ (s : String) (zone : pfs.zone),
      ∃ t, (default_stream s).put_zone zone = default_stream t)) :=
  ⟨put_module_state_after, by decide, by decide, by decide, inserters_keep_default_state⟩

/-! ## Addresses, offsets and booleans -/

theorem numeral_eq_toDigits (b : Nat) (hb : 0 < b) (n : Nat) :
    numeral b n = String.mk (Nat.toDigits b n) :=
  String.ext (numeral_data b hb n)

theorem put_mem_perm_str (perm : pfs.mem_perm) :
    (ostringstream.put_mem_perm perm).str
      = String.mk [if perm.can_read then 'r' else '-', if perm.can_write then 'w' else '-',
          if perm.can_execute then 'x' else '-', if perm.is_shared then 's' else 'p'] := by
  apply String.ext
  simp [ostream.put_mem_perm, ostream.put_char, ostream.write, padded_zero, ostringstream,
    ostream.str, String.singleton]

theorem put_mem_region_str (region : pfs.mem_region) :
    (ostringstream.put_mem_region region).str
      = "addr[0x" ++ numeral 16 region.start_address ++ "]-[0x"
          ++ numeral 16 region.end_address ++ "] "
        ++ "perm[" ++ (ostringstream.put_mem_perm region.perm).str ++ "]"
        ++ "offset[0x" ++ numeral 16 region.offset ++ "] "
        ++ "device[" ++ numeral 16 region.device ++ "] "
        ++ "inode[" ++ numeral 10 region.inode ++ "] "
        ++ "pathname[" ++ region.pathname ++ "]" := by
  apply String.ext
  simp [ostream.put_mem_region, ostream.put_mem_perm, ostream.put_str, ostream.put_char,
    ostream.put_unsigned, ostream.write, ostream.hex, ostream.dec, padded_zero,
    ostringstream, basefield.radix, ostream.str, String.data_append, List.append_assoc]

theorem put_module_str (S : pfs.module.state) (module : pfs.module) :
    (ostringstream.put_module S module).str
      = "name[" ++ module.name ++ "] "
        ++ "size[" ++ numeral 10 module.size ++ "] "
        ++ "instances[" ++ numeral 10 module.instances ++ "] "
        ++ "dependencies[" ++ join ostream.put_str module.dependencies ++ "] "
        ++ "state[" ++ (ostringstream.put_module_state S module.current_state).str ++ "] "
        ++ "offset[" ++ numeral 10 module.offset ++ "] "
        ++ "out_of_tree[" ++ (if module.is_out_of_tree then "true" else "false") ++ "] "
        ++ "unsigned[" ++ (if module.is_unsigned then "true" else "false") ++ "] " := by
  simp only [ostream.put_module, ostream.put_str, ostream.put_unsigned, ostream.put_bool,
    ostream.write, ostream.set_boolalpha, put_module_state_eq, padded_zero, ostringstream,
    basefield.radix, ostream.str, String.empty_append, if_true]

theorem starts_append_right {seg a : String} (h : seg.data <+: a.data) (b : String) :
    seg.data <+: (a ++ b).data := by
  rw [String.data_append]
  exact h.trans (List.prefix_append _ _)

theorem put_unix_domain_socket_starts (T : pfs.unix_domain_socket.type)
    (S : pfs.unix_domain_socket.state) (uds : pfs.unix_domain_socket) :
    ("skbuff[0x" ++ numeral 16 uds.skbuff ++ "] ").data
      <+: (ostringstream.put_unix_domain_socket T S uds).str.data := by
  simp only [ostream.put_unix_domain_socket, ostream.put_str, ostream.put_unsigned,
    ostream.put_signed, ostream.write, ostream.hex, ostream.dec,
    put_unix_domain_socket_type_eq, put_unix_domain_socket_state_eq,
    padded_zero, ostringstream, basefield.radix, ostream.str, String.empty_append]
  iterate 21 apply starts_append_right
  exact List.prefix_refl _

theorem put_socket_ends (T : pfs.socket.timer) (S : pfs.socket.state) (socket : pfs.socket) :
    ∃ body : String, (ostringstream.put_socket T S socket).str
      = body ++ "skbuff[0x" ++ numeral 16 socket.skbuff ++ "] " := by
  simp only [ostream.put_socket, ostream.put_str, ostream.put_unsigned, ostream.put_signed,
    ostream.write, ostream.hex, ostream.dec, put_socket_state_eq, put_socket_timer_eq,
    padded_zero, ostringstream, basefield.radix, ostream.str, String.empty_append]
  exact ⟨_, rfl⟩

set_option maxRecDepth 100000 in
/-- C12 does not hold as stated: the module inserter writes the offset 255 of
the sample module as "offset[255]", in decimal and without the prefix "0x";
the output does not contain "offset[0xff]". -/
theorem module_offset_written_in_decimal :
    (ostringstream.put_module sample_module_state sample_module).str
      = "name[ext4] size[737280] instances[1] dependencies[mbcache,jbd2] state[Live] "
        ++ "offset[255] out_of_tree[false] unsigned[true] " ∧
    ¬ ("offset[0xff]".data <:+:
      (ostringstream.put_module sample_module_state sample_module).str.data) := by
  decide

set_option maxRecDepth 100000 in
/-- C12, amended. On a fresh stream, for every value of the field: the socket
inserter ends with "skbuff[0x" followed by the base-16 numeral of `skbuff`,
the unix_domain_socket inserter starts with the same segment for its `skbuff`,
and the mem_region inserter writes `start_address`, `end_address` and `offset`
as "0x" followed by their base-16 numerals; the base-16 numeral is the one of
the standard library (`Nat.toDigits 16`: lowercase digits, as many as the
value has, no padding), so the value 255 is written 0xff.  The module inserter
writes `offset` as its decimal numeral, without a prefix. -/
theorem address_fields_rendering :
    (∀ (T : pfs.socket.timer) (S : pfs.socket.state) (socket : pfs.socket),
      ∃ body : String, (ostringstream.put_socket T S socket).str
        = body ++ "skbuff[0x" ++ numeral 16 socket.skbuff ++ "] ") ∧
    (∀ (T : pfs.unix_domain_socket.type) (S : pfs.unix_domain_socket.state)
      (uds : pfs.unix_domain_socket),
      ("skbuff[0x" ++ numeral 16 uds.skbuff ++ "] ").data
        <+: (ostringstream.put_unix_domain_socket T S uds).str.data) ∧
    (∀ region : pfs.mem_region,
      (ostringstream.put_mem_region region).str
        = "addr[0x" ++ numeral 16 region.start_address ++ "]-[0x"
            ++ numeral 16 region.end_address ++ "] "
          ++ "perm[" ++ (ostringstream.put_mem_perm region.perm).str ++ "]"
          ++ "offset[0x" ++ numeral 16 region.offset ++ "] "
          ++ "device[" ++ numeral 16 region.device ++ "] "
          ++ "inode[" ++ numeral 10 region.inode ++ "] "
          ++ "pathname[" ++ region.pathname ++ "]") ∧
    (∀ (S : pfs.module.state) (module : pfs.module),
      (ostringstream.put_module S module).str
        = "name[" ++ module.name ++ "] "
          ++ "size[" ++ numeral 10 module.size ++ "] "
          ++ "instances[" ++ numeral 10 module.instances ++ "] "
          ++ "dependencies[" ++ join ostream.put_str module.dependencies ++ "] "
          ++ "state[" ++ (ostringstream.put_module_state S module.current_state).str ++ "] "
          ++ "offset[" ++ numeral 10 module.offset ++ "] "
          ++ "out_of_tree[" ++ (if module.is_out_of_tree then "true" else "false") ++ "] "
          ++ "unsigned[" ++ (if module.is_unsigned then "true" else "false") ++ "] ") ∧
    (∀ v : Nat, numeral 16 v = String.mk (Nat.toDigits 16 v) ∧
      (numeral 16 v).length = Nat.log 16 v + 1 ∧
      numeral 10 v = String.mk (Nat.toDigits 10 v)) ∧
    numeral 16 255 = "ff" ∧
    (ostringstream.put_unix_domain_socket sample_unix_domain_socket_type
        sample_unix_domain_socket_state sample_unix_domain_socket).str
      = "skbuff[0xff] ref_count[2] protocol[0] flags[65536] type[Stream] "
        ++ "state[Unconnected] inode[4321] path[/run/dbus] " :=
  ⟨put_socket_ends, put_unix_domain_socket_starts, put_mem_region_str, put_module_str,
   fun v => ⟨numeral_eq_toDigits 16 (by decide) v, numeral_length 16 (by decide) v,
     numeral_eq_toDigits 10 (by decide) v⟩,
   by decide, by decide⟩

set_option maxRecDepth 100000 in
theorem put_status_core_dumping_inside (TS : pfs.task_state) (SC : pfs.status.seccomp)
    (st : pfs.status) :
    ("core_dumping[" ++ (if st.core_dumping then "true" else "false") ++ "]").data
      <:+: (ostringstream.put_status TS SC st).str.data := by
  simp only [ostream.put_status, ostream.put_uid_set, ostream.put_str, ostream.put_char,
    ostream.put_unsigned, ostream.put_signed, ostream.put_bool, ostream.write,
    ostream.set_boolalpha, ostream.noboolalpha, put_task_state_eq, put_seccomp_eq,
    padded_zero, ostringstream, basefield.radix, ostream.str, String.empty_append, if_true]
  iterate 50 apply infix_append_right
  exact segment_inside _ _ _

set_option maxRecDepth 100000 in
theorem put_status_no_new_privs_inside (TS : pfs.task_state) (SC : pfs.status.seccomp)
    (st : pfs.status) :
    ("no_new_privs[" ++ (if st.no_new_privs then "true" else "false") ++ "]").data
      <:+: (ostringstream.put_status TS SC st).str.data := by
  simp only [ostream.put_status, ostream.put_uid_set, ostream.put_str, ostream.put_char,
    ostream.put_unsigned, ostream.put_signed, ostream.put_bool, ostream.write,
    ostream.set_boolalpha, ostream.noboolalpha, put_task_state_eq, put_seccomp_eq,
    padded_zero, ostringstream, basefield.radix, ostream.str, String.empty_append, if_true]
  iterate 9 apply infix_append_right
  exact segment_inside _ _ _

set_option maxRecDepth 100000 in
/-- C13. On a fresh stream (the default state), for every status the output of
the status inserter contains "core_dumping[" and "no_new_privs[" followed by
the word "true" when the field is true and "false" when it is false, and for
every module the module inserter writes the segments "out_of_tree[...]" and
"unsigned[...]" with the word "true" or "false" for `is_out_of_tree` and
`is_unsigned`; a boolean is never written as 1 or 0.  Evaluated at the sample
status and the sample module. -/
theorem boolean_fields_as_words :
    (∀ (TS : pfs.task_state) (SC : pfs.status.seccomp) (st : pfs.status),
      ("core_dumping[" ++ (if st.core_dumping then "true" else "false") ++ "]").data
        <:+: (ostringstream.put_status TS SC st).str.data ∧
      ("no_new_privs[" ++ (if st.no_new_privs then "true" else "false") ++ "]").data
        <:+: (ostringstream.put_status TS SC st).str.data) ∧
    (∀ (S : pfs.module.state) (module : pfs.module),
      (ostringstream.put_module S module).str
        = "name[" ++ module.name ++ "] "
          ++ "size[" ++ numeral 10 module.size ++ "] "
          ++ "instances[" ++ numeral 10 module.instances ++ "] "
          ++ "dependencies[" ++ join ostream.put_str module.dependencies ++ "] "
          ++ "state[" ++ (ostringstream.put_module_state S module.current_state).str ++ "] "
          ++ "offset[" ++ numeral 10 module.offset ++ "] "
          ++ "out_of_tree[" ++ (if module.is_out_of_tree then "true" else "false") ++ "] "
          ++ "unsigned[" ++ (if module.is_unsigned then "true" else "false") ++ "] ") ∧
    (ostringstream.put_status sample_task_state sample_seccomp sample_status).str
      = "name[cat] umask[0022] state[Running] tgid[100] ngid[0] pid[101] ppid[1] "
        ++ "tracer_pid[0] uid[1000,1001,1002,1003] gid[2000,2001,2002,2003] fdsize[64] "
        ++ "groups[4,24,27] ns_tgid[100] ns_pid[101] ns_pgid[9] ns_sid[10] vm_peak[11] "
        ++ "vm_size[12] vm_lck[13] vm_pin[14] vm_hwm[15] vm_rss[16] rss_anon[17] "
        ++ "rss_file[18] rss_shmem[19] vm_data[20] vm_stk[21] vm_exe[22] vm_lib[23] "
        ++ "vm_pte[24] vm_swap[25] huge_tlb_pages[26] core_dumping[false] threads[1] "
        ++ "sig_q[0/63] sig_pnd[0000000000000000] shd_pnd[0000000000000000] "
        ++ "sig_blk[0000000000010000] sig_ign[0000000000000004] sig_cgt[0000000000000000] "
        ++ "cap_inh[0000000000000000] cap_prm[0000000000000000] cap_eff[0000000000000000] "
        ++ "cap_bnd[0000003fffffffff] cap_amb[0000000000000000] no_new_privs[true] "
        ++ "seccomp[Filter] voluntary_ctxt_switches[5] nonvoluntary_ctxt_switches[6] " ∧
    (ostringstream.put_module sample_module_state sample_module).str
      = "name[ext4] size[737280] instances[1] dependencies[mbcache,jbd2] state[Live] "
        ++ "offset[255] out_of_tree[false] unsigned[true] " :=
  ⟨fun TS SC st =>
     ⟨put_status_core_dumping_inside TS SC st, put_status_no_new_privs_inside TS SC st⟩,
   put_module_str, by decide, by decide⟩

/-- C14 does not hold as stated: the mask 0o177777, a 64-bit value, is
written by `to_octal_mask` with 6 characters, not 4. -/
theorem to_octal_mask_six_characters :
    to_octal_mask 0o177777 = "177777" ∧ (to_octal_mask 0o177777).length = 6 ∧
    (to_octal_mask 0o177777).length ≠ 4 := by
  decide

/-- C14, amended. For every 64-bit value, `to_hex_mask` gives exactly 16
characters; `to_octal_mask` gives at least 4 and at most 22 characters: exactly
4 when the mask is below 8 ^ 4 = 4096, and the number of octal digits of the
mask, which is more than 4, otherwise. -/
theorem mask_widths (mask : Nat) (h : mask < 2 ^ 64) :
    (to_hex_mask mask).length = 16 ∧
    4 ≤ (to_octal_mask mask).length ∧
    (to_octal_mask mask).length ≤ 22 ∧
    (mask < 8 ^ 4 → (to_octal_mask mask).length = 4) ∧
    (8 ^ 4 ≤ mask → (to_octal_mask mask).length = Nat.log 8 mask + 1 ∧
      4 < (to_octal_mask mask).length) := by
  have h16 : Nat.log 16 mask < 16 := by
    rcases Nat.eq_zero_or_pos mask with h0 | h0
    · simp [h0]
    · exact Nat.log_lt_of_lt_pow (by omega) (lt_of_lt_of_le h (by norm_num))
  have h8 : Nat.log 8 mask < 22 := by
    rcases Nat.eq_zero_or_pos mask with h0 | h0
    · simp [h0]
    · exact Nat.log_lt_of_lt_pow (by omega) (lt_of_lt_of_le h (by norm_num))
  rw [to_hex_mask_eq, to_octal_mask_eq, padded_length, padded_length,
    numeral_length 16 (by decide), numeral_length 8 (by decide)]
  refine ⟨by omega, by omega, by omega, fun hlt => ?_, fun hle => ?_⟩
  · have h4 : Nat.log 8 mask < 4 := by
      rcases Nat.eq_zero_or_pos mask with h0 | h0
      · simp [h0]
      · exact Nat.log_lt_of_lt_pow (by omega) hlt
    omega
  · have h4 : 4 ≤ Nat.log 8 mask :=
      (Nat.pow_le_iff_le_log (by decide) (by omega)).1 hle
    omega

/-- The statement C14, amended, at the masks 0xDEADBEEF and 0o177777. -/
theorem mask_widths_witness :
    (to_hex_mask 0xDEADBEEF).length = 16 ∧ 4 < (to_octal_mask 0o177777).length ∧
    (to_octal_mask 8).length = 4 :=
  ⟨(mask_widths 0xDEADBEEF (by decide)).1,
   ((mask_widths 0o177777 (by decide)).2.2.2.2 (by decide)).2,
   (mask_widths 8 (by decide)).2.2.2.1 (by decide)⟩

/-! ## The status inserter: identity sets and namespace ids -/

theorem put_unsigned_default (s : String) (v : Nat) :
    ostream.put_unsigned ⟨s, basefield.dec, false, ' ', 0⟩ v
      = ⟨s ++ numeral 10 v, basefield.dec, false, ' ', 0⟩ := by
  simp [ostream.put_unsigned, ostream.write, padded_zero, basefield.radix]

theorem join_text {α : Type} (put : ostream → α → ostream) (text : α → String)
    (hput : ∀ (s : String) (v : α),
      put ⟨s, basefield.dec, false, ' ', 0⟩ v = ⟨s ++ text v, basefield.dec, false, ' ', 0⟩)
    (xs : List α) :
    join put xs = String.intercalate "," (xs.map text) := by
  cases xs with
  | nil => rfl
  | cons x rest =>
    have h := join_fold put text hput rest (text x)
    simp only [join, List.isEmpty_cons, Bool.false_eq_true, if_false, List.foldl_cons,
      ostringstream, hput, ostream.put_char, ostream.write, padded_zero, String.empty_append,
      List.map_cons, String.intercalate]
    exact h

theorem put_uid_set_str (set : pfs.status.uid_set) :
    (ostringstream.put_uid_set set).str
      = numeral 10 set.real ++ "," ++ numeral 10 set.effective ++ ","
        ++ numeral 10 set.saved_set ++ "," ++ numeral 10 set.filesystem := by
  simp only [ostream.put_uid_set, ostream.put_unsigned, ostream.put_char, ostream.write,
    padded_zero, ostringstream, basefield.radix, ostream.str, String.empty_append]
  rfl

theorem put_uid_set_eq_join (set : pfs.status.uid_set) :
    (ostringstream.put_uid_set set).str
      = join ostream.put_unsigned [set.real, set.effective, set.saved_set, set.filesystem] := by
  rw [put_uid_set_str, join_text ostream.put_unsigned (numeral 10) put_unsigned_default]
  simp only [List.map_cons, List.map_nil, String.intercalate, String.intercalate.go]

theorem uid_segment_inside (a label n1 s1 n2 s2 n3 s3 n4 : String) :
    (label ++ (n1 ++ s1 ++ n2 ++ s2 ++ n3 ++ s3 ++ n4) ++ "]").data
      <:+: (a ++ label ++ n1 ++ s1 ++ n2 ++ s2 ++ n3 ++ s3 ++ n4 ++ "] ").data :=
  ⟨a.data, " ".data, by simp [String.data_append, List.append_assoc]⟩

set_option maxRecDepth 100000 in
theorem put_status_uid_inside (TS : pfs.task_state) (SC : pfs.status.seccomp)
    (st : pfs.status) :
    ("uid[" ++ (ostringstream.put_uid_set st.uid).str ++ "]").data
      <:+: (ostringstream.put_status TS SC st).str.data := by
  simp only [ostream.put_status, ostream.put_uid_set, ostream.put_str, ostream.put_char,
    ostream.put_unsigned, ostream.put_signed, ostream.put_bool, ostream.write,
    ostream.set_boolalpha, ostream.noboolalpha, put_task_state_eq, put_seccomp_eq,
    padded_zero, ostringstream, basefield.radix, ostream.str, String.empty_append, if_true]
  iterate 128 apply infix_append_right
  exact uid_segment_inside _ _ _ _ _ _ _ _ _

set_option maxRecDepth 100000 in
theorem put_status_gid_inside (TS : pfs.task_state) (SC : pfs.status.seccomp)
    (st : pfs.status) :
    ("gid[" ++ (ostringstream.put_uid_set st.gid).str ++ "]").data
      <:+: (ostringstream.put_status TS SC st).str.data := by
  simp only [ostream.put_status, ostream.put_uid_set, ostream.put_str, ostream.put_char,
    ostream.put_unsigned, ostream.put_signed, ostream.put_bool, ostream.write,
    ostream.set_boolalpha, ostream.noboolalpha, put_task_state_eq, put_seccomp_eq,
    padded_zero, ostringstream, basefield.radix, ostream.str, String.empty_append, if_true]
  iterate 119 apply infix_append_right
  exact uid_segment_inside _ _ _ _ _ _ _ _ _

/-- C15. For every uid_set, the uid_set inserter writes on a fresh stream the
decimal numerals of `real`, `effective`, `saved_set`, `filesystem` in this
order, separated by single commas, with no comma at the end: the text is
`join` of the four values.  For every status, the status inserter's output
contains "uid[" and "gid[" followed by exactly this text for the `uid` and the
`gid` set, and the closing bracket. -/
theorem uid_set_text (set : pfs.status.uid_set) :
    (ostringstream.put_uid_set set).str
      = join ostream.put_unsigned [set.real, set.effective, set.saved_set, set.filesystem] ∧
    (ostringstream.put_uid_set set).str
      = numeral 10 set.real ++ "," ++ numeral 10 set.effective ++ ","
        ++ numeral 10 set.saved_set ++ "," ++ numeral 10 set.filesystem ∧
    (∀ (TS : pfs.task_state) (SC : pfs.status.seccomp) (st : pfs.status),
      ("uid[" ++ (ostringstream.put_uid_set st.uid).str ++ "]").data
        <:+: (ostringstream.put_status TS SC st).str.data ∧
      ("gid[" ++ (ostringstream.put_uid_set st.gid).str ++ "]").data
        <:+: (ostringstream.put_status TS SC st).str.data) ∧
    (ostringstream.put_uid_set ⟨1000, 1001, 1002, 1003⟩).str = "1000,1001,1002,1003" :=
  ⟨put_uid_set_eq_join set, put_uid_set_str set,
   fun TS SC st => ⟨put_status_uid_inside TS SC st, put_status_gid_inside TS SC st⟩,
   by decide⟩

theorem two_segments_inside (a l1 v1 l2 v2 : String) :
    (l1 ++ v1 ++ "] " ++ l2 ++ v2 ++ "]").data
      <:+: (a ++ l1 ++ v1 ++ "] " ++ l2 ++ v2 ++ "] ").data :=
  ⟨a.data, " ".data, by simp [String.data_append, List.append_assoc]⟩

theorem three_segments_inside (a l1 v1 l2 v2 l3 v3 : String) :
    (l1 ++ v1 ++ "] " ++ l2 ++ v2 ++ "] " ++ l3 ++ v3 ++ "]").data
      <:+: (a ++ l1 ++ v1 ++ "] " ++ l2 ++ v2 ++ "] " ++ l3 ++ v3 ++ "] ").data :=
  ⟨a.data, " ".data, by simp [String.data_append, List.append_assoc]⟩

set_option maxRecDepth 100000 in
theorem put_status_ns_ids_inside (TS : pfs.task_state) (SC : pfs.status.seccomp)
    (st : pfs.status) :
    ("ns_tgid[" ++ signed_decimal st.tgid ++ "] " ++ "ns_pid[" ++ signed_decimal st.pid
        ++ "]").data
      <:+: (ostringstream.put_status TS SC st).str.data := by
  simp only [ostream.put_status, ostream.put_uid_set, ostream.put_str, ostream.put_char,
    ostream.put_unsigned, ostream.put_signed, ostream.put_bool, ostream.write,
    ostream.set_boolalpha, ostream.noboolalpha, put_task_state_eq, put_seccomp_eq,
    padded_zero, ostringstream, basefield.radix, ostream.str, String.empty_append, if_true]
  iterate 107 apply infix_append_right
  exact two_segments_inside _ _ _ _ _

set_option maxRecDepth 100000 in
theorem put_status_ids_inside (TS : pfs.task_state) (SC : pfs.status.seccomp)
    (st : pfs.status) :
    ("tgid[" ++ signed_decimal st.tgid ++ "] " ++ "ngid[" ++ signed_decimal st.ngid ++ "] "
        ++ "pid[" ++ signed_decimal st.pid ++ "]").data
      <:+: (ostringstream.put_status TS SC st).str.data := by
  simp only [ostream.put_status, ostream.put_uid_set, ostream.put_str, ostream.put_char,
    ostream.put_unsigned, ostream.put_signed, ostream.put_bool, ostream.write,
    ostream.set_boolalpha, ostream.noboolalpha, put_task_state_eq, put_seccomp_eq,
    padded_zero, ostringstream, basefield.radix, ostream.str, String.empty_append, if_true]
  iterate 143 apply infix_append_right
  exact three_segments_inside _ _ _ _ _ _ _

set_option maxRecDepth 100000 in
/-- C16. For every status, the output of the status inserter on a fresh stream
contains the segments "ns_tgid[" and "ns_pid[" with the decimal numerals of the
fields `tgid` and `pid`, the same values as in its segments "tgid[" and
"pid["; the output does not depend on the fields `ns_tgid` and `ns_pid`.  The
sample status, whose `ns_tgid` is 7 and whose `ns_pid` is 8, gives
"ns_tgid[100] ns_pid[101]" for its `tgid` 100 and its `pid` 101. -/
theorem status_ns_ids_show_tgid_and_pid :
    (∀ (TS : pfs.task_state) (SC : pfs.status.seccomp) (st : pfs.status),
      ("ns_tgid[" ++ signed_decimal st.tgid ++ "] " ++ "ns_pid[" ++ signed_decimal st.pid
          ++ "]").data
        <:+: (ostringstream.put_status TS SC st).str.data ∧
      ("tgid[" ++ signed_decimal st.tgid ++ "] " ++ "ngid[" ++ signed_decimal st.ngid ++ "] "
          ++ "pid[" ++ signed_decimal st.pid ++ "]").data
        <:+: (ostringstream.put_status TS SC st).str.data) ∧
    (∀ (out : ostream) (TS : pfs.task_state) (SC : pfs.status.seccomp) (st : pfs.status)
      (a b : Int),
      out.put_status TS SC { st with ns_tgid := a, ns_pid := b } = out.put_status TS SC st) ∧
    (sample_status.ns_tgid = 7 ∧ sample_status.ns_pid = 8 ∧
      "] tgid[100] ngid[0] pid[101] ".data
        <:+: (ostringstream.put_status sample_task_state sample_seccomp
          sample_status).str.data ∧
      "] ns_tgid[100] ns_pid[101] ".data
        <:+: (ostringstream.put_status sample_task_state sample_seccomp
          sample_status).str.data) :=
  ⟨fun TS SC st => ⟨put_status_ns_ids_inside TS SC st, put_status_ids_inside TS SC st⟩,
   fun _ _ _ _ _ _ => rfl, by decide⟩

/-! ## Reading the masks back -/

theorem digit_value_digitChar (d : Nat) (hd : d < 16) : digit_value (Nat.digitChar d) = d := by
  interval_cases d <;> decide

theorem read_numeral_aux (b : Nat) (hb : 1 < b) (hb16 : b ≤ 16) (fuel n : Nat)
    (hf : n < fuel) :
    (numeral_aux b fuel n).foldl (fun acc c => acc * b + digit_value c) 0 = n := by
  induction fuel generalizing n with
  | zero => omega
  | succ fuel ih =>
    simp only [numeral_aux]
    by_cases h : n < b
    · rw [if_pos h]
      simp [digit_value_digitChar n (by omega)]
    · have hdiv : n / b < n := Nat.div_lt_self (by omega) hb
      have hmod : n % b < 16 := lt_of_lt_of_le (Nat.mod_lt n (by omega)) hb16
      rw [if_neg h, List.foldl_append, ih (n / b) (by omega)]
      simp only [List.foldl_cons, List.foldl_nil, digit_value_digitChar _ hmod]
      exact Nat.div_add_mod' n b

theorem read_zeros (b k : Nat) (l : List Char) :
    (List.replicate k '0' ++ l).foldl (fun acc c => acc * b + digit_value c) 0
      = l.foldl (fun acc c => acc * b + digit_value c) 0 := by
  induction k with
  | zero => simp
  | succ k ih =>
    rw [List.replicate_succ, List.cons_append, List.foldl_cons]
    have h0 : 0 * b + digit_value '0' = 0 := by
      rw [Nat.zero_mul, Nat.zero_add]
      decide
    rw [h0]
    exact ih

theorem read_padded_numeral (b : Nat) (hb : 1 < b) (hb16 : b ≤ 16) (w n : Nat) :
    read_numeral b (padded w '0' (numeral b n)) = n := by
  simp only [read_numeral, padded, String.data_append, read_zeros, numeral]
  exact read_numeral_aux b hb hb16 (n + 1) n (Nat.lt_succ_self n)

/-- C17. Both bitmask renderers are lossless: for every mask (every natural
number, hence every 64-bit value), `to_hex_mask mask` read as a base-16 numeral
and `to_octal_mask mask` read as a base-8 numeral give back the mask; hence
both functions are injective. -/
theorem mask_renderers_lossless :
    (∀ mask : Nat, read_numeral 16 (to_hex_mask mask) = mask ∧
      read_numeral 8 (to_octal_mask mask) = mask) ∧
    Function.Injective to_hex_mask ∧
    Function.Injective to_octal_mask ∧
    read_numeral 16 "00000000deadbeef" = 0xDEADBEEF ∧
    read_numeral 8 "0010" = 8 := by
  have hhex : ∀ mask : Nat, read_numeral 16 (to_hex_mask mask) = mask := fun mask => by
    rw [to_hex_mask_eq]
    exact read_padded_numeral 16 (by decide) (by decide) 16 mask
  have hoct : ∀ mask : Nat, read_numeral 8 (to_octal_mask mask) = mask := fun mask => by
    rw [to_octal_mask_eq]
    exact read_padded_numeral 8 (by decide) (by decide) 4 mask
  refine ⟨fun mask => ⟨hhex mask, hoct mask⟩, ?_, ?_, by decide, by decide⟩
  · intro m n h
    rw [← hhex m, ← hhex n, h]
  · intro m n h
    rw [← hoct m, ← hoct n, h]

/-- The statement C17 at the masks 0xDEADBEEF and 0o177777, and at the
distinct masks 1 and 2, whose renderings differ. -/
theorem mask_renderers_lossless_witness :
    read_numeral 16 (to_hex_mask 0xDEADBEEF) = 0xDEADBEEF ∧
    read_numeral 8 (to_octal_mask 0o177777) = 0o177777 ∧
    to_hex_mask 1 ≠ to_hex_mask 2 ∧
    to_octal_mask 1 ≠ to_octal_mask 2 :=
  ⟨(mask_renderers_lossless.1 0xDEADBEEF).1, (mask_renderers_lossless.1 0o177777).2,
   fun h => absurd (mask_renderers_lossless.2.1 h) (by decide),
   fun h => absurd (mask_renderers_lossless.2.2.1 h) (by decide)⟩

/-! ## Splitting a joined sequence -/

theorem intercalate_go_data (acc : String) (l : List String) :
    (String.intercalate.go acc "," l).data
      = acc.data ++ (l.map (fun s => ',' :: s.data)).flatten := by
  induction l generalizing acc with
  | nil => simp [String.intercalate.go]
  | cons a rest ih =>
    rw [String.intercalate.go, ih]
    simp [String.data_append, List.append_assoc]

theorem list_intercalate_cons (a : List Char) (l : List (List Char)) :
    [','].intercalate (a :: l) = a ++ (l.map (fun s => ',' :: s)).flatten := by
  induction l generalizing a with
  | nil => simp [List.intercalate]
  | cons b rest ih =>
    have h := ih b
    simp only [List.intercalate] at h ⊢
    simp only [List.intersperse_cons₂, List.flatten_cons, h, List.map_cons]
    simp

theorem string_intercalate_data (l : List String) :
    (String.intercalate "," l).data = [','].intercalate (l.map String.data) := by
  cases l with
  | nil => rfl
  | cons a rest =>
    rw [String.intercalate, intercalate_go_data, List.map_cons, list_intercalate_cons,
      List.map_map]
    rfl

theorem count_comma_flatten (l : List (List Char)) (h : ∀ s ∈ l, ',' ∉ s) :
    ((l.map (fun s => ',' :: s)).flatten).count ',' = l.length := by
  induction l with
  | nil => rfl
  | cons a rest ih =>
    have ha : a.count ',' = 0 := List.count_eq_zero_of_not_mem (h a (List.mem_cons_self _ _))
    have hr := ih (fun s hs => h s (List.mem_cons_of_mem _ hs))
    simp only [List.map_cons, List.flatten_cons, List.count_append, List.cons_append,
      List.count_cons_self, List.length_cons, ha, hr]
    omega

theorem join_fold_str {α : Type} (put : ostream → α → ostream) (text : α → String)
    (hput : ∀ (s : String) (v : α),
      put ⟨s, basefield.dec, false, ' ', 0⟩ v = ⟨s ++ text v, basefield.dec, false, ' ', 0⟩)
    (xs : List α) (acc : String) :
    (xs.foldl (fun out v => (put out v).put_char ',')
      ⟨acc ++ String.singleton ',', basefield.dec, false, ' ', 0⟩).str
      = String.intercalate.go acc "," (xs.map text) ++ String.singleton ',' := by
  induction xs generalizing acc with
  | nil => simp [ostream.str, String.intercalate.go]
  | cons x rest ih =>
    simp only [List.foldl_cons, List.map_cons, String.intercalate.go, hput, ostream.put_char,
      ostream.write, padded_zero]
    exact ih _

/-- C18. For every non-empty sequence whose elements have textual forms
without a comma (and whose inserter, on a stream in the default state, appends
the textual form and leaves the state as it is), splitting `join` of the
sequence at the commas gives back the textual forms in their order, `join` of
the sequence holds one comma less than the sequence has elements, and the
string from which `pop_back` removes the last character is `join` of the
sequence followed by a comma: the character removed is that comma, not a
character of an element. -/
theorem join_split {α : Type} (put : ostream → α → ostream) (text : α → String)
    (hput : ∀ (s : String) (v : α),
      put ⟨s, basefield.dec, false, ' ', 0⟩ v = ⟨s ++ text v, basefield.dec, false, ' ', 0⟩)
    (xs : List α) (hne : xs ≠ []) (hc : ∀ v ∈ xs, ',' ∉ (text v).data) :
    (join put xs).data.splitOn ',' = xs.map (fun v => (text v).data) ∧
    (join put xs).data.count ',' = xs.length - 1 ∧
    (xs.foldl (fun out v => (put out v).put_char ',') ostringstream).str
      = join put xs ++ "," := by
  have hj := join_text put text hput xs
  have hd : (join put xs).data = [','].intercalate (xs.map (fun v => (text v).data)) := by
    rw [hj, string_intercalate_data, List.map_map]
    rfl
  have hmem : ∀ l ∈ xs.map (fun v => (text v).data), ',' ∉ l := by
    intro l hl
    rw [List.mem_map] at hl
    obtain ⟨v, hv, rfl⟩ := hl
    exact hc v hv
  refine ⟨?_, ?_, ?_⟩
  · rw [hd]
    exact List.splitOn_intercalate _ ',' hmem (by simpa using hne)
  · cases xs with
    | nil => exact absurd rfl hne
    | cons x rest =>
      rw [hd, List.map_cons, list_intercalate_cons, List.count_append,
        List.count_eq_zero_of_not_mem (hc x (List.mem_cons_self _ _)),
        count_comma_flatten _ (fun s hs => hmem s (List.mem_cons_of_mem _ hs))]
      simp
  · cases xs with
    | nil => exact absurd rfl hne
    | cons x rest =>
      have h := join_fold_str put text hput rest (text x)
      rw [hj]
      simp only [List.foldl_cons, ostringstream, hput, ostream.put_char, ostream.write,
        padded_zero, String.empty_append, List.map_cons, String.intercalate]
      exact h

/-- The statement C18 at a sequence of three strings, one of them empty. -/
theorem join_split_witness :
    (join ostream.put_str ["ab", "", "c"]).data.splitOn ',' = [['a', 'b'], [], ['c']] ∧
    (join ostream.put_str ["ab", "", "c"]).data.count ',' = 2 ∧
    (["ab", "", "c"].foldl (fun out v => (ostream.put_str out v).put_char ',')
      ostringstream).str = join ostream.put_str ["ab", "", "c"] ++ "," :=
  join_split ostream.put_str id
    (by intro s v; simp [ostream.put_str, ostream.write, padded_zero])
    ["ab", "", "c"] (by decide) (by decide)

/-! ## The permission inserter -/

/-- C19. For every mem_perm, the mem_perm inserter writes on a fresh stream
exactly four characters: `r` or `-` for `can_read`, `w` or `-` for `can_write`,
`x` or `-` for `can_execute`, `s` or `p` for `is_shared`, in this order.  The
mapping is injective: the 16 records of four booleans give 16 distinct
strings. -/
theorem mem_perm_text :
    (∀ perm : pfs.mem_perm,
      (ostringstream.put_mem_perm perm).str
        = String.mk [if perm.can_read then 'r' else '-', if perm.can_write then 'w' else '-',
            if perm.can_execute then 'x' else '-', if perm.is_shared then 's' else 'p'] ∧
      (ostringstream.put_mem_perm perm).str.length = 4) ∧
    Function.Injective (fun perm : pfs.mem_perm => (ostringstream.put_mem_perm perm).str) ∧
    (ostringstream.put_mem_perm ⟨true, false, true, false⟩).str = "r-xp" ∧
    (ostringstream.put_mem_perm ⟨true, true, false, true⟩).str = "rw-s" := by
  refine ⟨fun perm => ⟨put_mem_perm_str perm, ?_⟩, ?_, by decide, by decide⟩
  · rw [put_mem_perm_str]
    rfl
  · intro p q h
    obtain ⟨r1, w1, x1, s1⟩ := p
    obtain ⟨r2, w2, x2, s2⟩ := q
    simp only [put_mem_perm_str] at h
    cases r1 <;> cases w1 <;> cases x1 <;> cases s1 <;> cases r2 <;> cases w2 <;>
      cases x2 <;> cases s2 <;> first | rfl | exact absurd h (by decide)

/-- The statement C19 at two records that differ in `is_shared` only. -/
theorem mem_perm_text_witness :
    (ostringstream.put_mem_perm ⟨true, false, true, false⟩).str.length = 4 ∧
    (ostringstream.put_mem_perm ⟨true, false, true, false⟩).str
      ≠ (ostringstream.put_mem_perm ⟨true, false, true, true⟩).str :=
  ⟨(mem_perm_text.1 ⟨true, false, true, false⟩).2,
   fun h => absurd (mem_perm_text.2.1 h) (by simp)⟩

end PfsFormat
